import Mathlib

set_option linter.unusedVariables false

/-!
Verification of the poopbot scheduler subsystem.

Shallow embedding of the relevant services:
  - `app/services/time_service.py`    (session window resolution)
  - `app/services/scheduler_service.py` (session close / streaks / dispatchers / tick)
  - `app/services/rate_limit_service.py` (cooldown gate)
  - `app/services/repo_service.py`    (get-or-create session and row accessors)
  - `app/services/reminder_service.py` (reminder text builders)
  - `app/services/q1_service.py`      (apply_plus)

Python `date` values are embedded as integers (the proleptic Gregorian
ordinal, exactly `date.toordinal()`): adding/subtracting `timedelta(days=1)`
is `+1`/`-1` on the ordinal, and date comparison is integer comparison,
which is exactly CPython's behaviour.  `month`/`day`/`weekday` are computed
from the ordinal by the same proleptic-Gregorian conversion CPython uses.
Python `datetime.time` values are embedded as a four-field structure with
lexicographic comparison, which is exactly CPython's `time` comparison for
(aware) times in the same timezone.
-/

namespace Poopbot

/-! ### Calendar arithmetic (CPython `datetime` internals)

Only what the scheduler reads off a `date`: `weekday()`, `.month`, `.day`.
`Int.ediv`/`Int.emod` agree with Python `//`/`%` on positive divisors. -/

/-- Leap-year rule of the proleptic Gregorian calendar (CPython `_is_leap`). -/
def isLeapYear (y : ℤ) : Bool :=
  decide (y.emod 4 = 0) && (decide (y.emod 100 ≠ 0) || decide (y.emod 400 = 0))

/-- Month lengths for a (non-)leap year, January first. -/
def monthLengths (leap : Bool) : List ℤ :=
  [31, if leap then 29 else 28, 31, 30, 31, 30, 31, 31, 30, 31, 30, 31]

/-- Walk the month lengths to convert a 0-based day-of-year into (month, day). -/
def monthDayOfDayOfYear : List ℤ → ℤ → ℤ → ℤ × ℤ
  | [], m, n => (m, n + 1)
  | dim :: rest, m, n =>
      if n < dim then (m, n + 1) else monthDayOfDayOfYear rest (m + 1) (n - dim)

/-- CPython `_ord2ymd`: proleptic Gregorian ordinal to (year, month, day). -/
def ord2ymd (ordinal : ℤ) : ℤ × ℤ × ℤ :=
  let n := ordinal - 1
  let n400 := n.ediv 146097
  let n := n.emod 146097
  let n100 := n.ediv 36524
  let n := n.emod 36524
  let n4 := n.ediv 1461
  let n := n.emod 1461
  let n1 := n.ediv 365
  let n := n.emod 365
  let year := n400 * 400 + n100 * 100 + n4 * 4 + n1 + 1
  if n1 = 4 ∨ n100 = 4 then
    (year - 1, 12, 31)
  else
    let md := monthDayOfDayOfYear (monthLengths (isLeapYear year)) 1 n
    (year, md.1, md.2)

/-- `date.month` of an ordinal-embedded date. -/
def dateMonth (d : ℤ) : ℤ := (ord2ymd d).2.1

/-- `date.day` of an ordinal-embedded date. -/
def dateDay (d : ℤ) : ℤ := (ord2ymd d).2.2

/-- `date.weekday()`: Monday = 0; ordinal 1 (0001-01-01) is a Monday. -/
def dateWeekday (d : ℤ) : ℤ := (d - 1).emod 7

/-- Embeds `scheduler_service._is_last_day_of_month`:
`(d + timedelta(days=1)).month != d.month`. -/
def is_last_day_of_month (d : ℤ) : Bool :=
  decide (dateMonth (d + 1) ≠ dateMonth d)

/-! ### Local wall-clock time (`datetime.time`) -/

/-- A Python `datetime.time` value (tzinfo omitted: the comparisons in
`get_session_window` are between times carrying the same tzinfo, where
CPython compares the clock fields lexicographically). -/
structure PyTime where
  hour : ℤ
  minute : ℤ
  second : ℤ
  microsecond : ℤ
deriving DecidableEq, Repr

/-- Field ranges a real `datetime.time` always satisfies. -/
def PyTime.isValid (t : PyTime) : Prop :=
  0 ≤ t.hour ∧ t.hour < 24 ∧ 0 ≤ t.minute ∧ t.minute < 60 ∧
  0 ≤ t.second ∧ t.second < 60 ∧ 0 ≤ t.microsecond ∧ t.microsecond < 1000000

instance (t : PyTime) : Decidable t.isValid := by
  unfold PyTime.isValid; infer_instance

/-- Microseconds since local midnight; a valid time is in `[0, 86400000000)`. -/
def PyTime.toMicro (t : PyTime) : ℤ :=
  ((t.hour * 60 + t.minute) * 60 + t.second) * 1000000 + t.microsecond

/-- CPython `time.__lt__`: lexicographic on (hour, minute, second, microsecond). -/
def timeLt (a b : PyTime) : Bool :=
  decide (a.hour < b.hour ∨ (a.hour = b.hour ∧
    (a.minute < b.minute ∨ (a.minute = b.minute ∧
      (a.second < b.second ∨ (a.second = b.second ∧
        a.microsecond < b.microsecond))))))

/-- CPython `time.__le__`. -/
def timeLe (a b : PyTime) : Bool := timeLt a b || decide (a = b)

/-! ### `time_service.get_session_window` -/

/-- Result record of `time_service.get_session_window`. -/
structure SessionWindow where
  session_date : ℤ
  is_blocked_window : Bool
  is_active_window : Bool
deriving DecidableEq, Repr

/-- Embeds `time_service.get_session_window`.  The tenant-local "now" is
passed in explicitly (its date and its clock time), replacing the
`now_in_tz` call; the comparisons and branches are the source's. -/
def get_session_window (localDate : ℤ) (t : PyTime) : SessionWindow :=
  let start : PyTime := ⟨0, 5, 0, 0⟩
  let stop : PyTime := ⟨23, 55, 0, 0⟩
  if timeLt t start then
    -- 00:00–00:05 => blocked, current session not started yet
    { session_date := localDate, is_blocked_window := true, is_active_window := false }
  else if timeLe stop t then
    -- 23:55–24:00 => blocked
    { session_date := localDate, is_blocked_window := true, is_active_window := false }
  else
    { session_date := localDate, is_blocked_window := false, is_active_window := true }

/-! ### Streak calculator (`scheduler_service`)

Per-user streak state is a `UserStreak` row's mutable pair
`(current_streak, last_poop_date)`. -/

/-- The `(current_streak, last_poop_date)` pair of a `UserStreak` row. -/
structure StreakState where
  current_streak : ℤ
  last_poop_date : Option ℤ
deriving DecidableEq, Repr

/-- Embeds the per-user streak update performed by
`scheduler_service._close_session` when the session for `local_date`
closes: `poops` is that user's `poops_n` for the day (0 when no
`SessionUserState` row exists). -/
def close_session_streak_step (local_date : ℤ) (poops : ℤ) (st : StreakState) : StreakState :=
  if 0 < poops then
    if st.last_poop_date = some (local_date - 1) then
      { current_streak := st.current_streak + 1, last_poop_date := some local_date }
    else
      { current_streak := 1, last_poop_date := some local_date }
  else
    { st with current_streak := 0 }

/-- Closes the days `d0, d0 + 1, …` in date order through the incremental
path, `hist` listing the user's `poops_n` for each consecutive day. -/
def run_incremental_closes (st : StreakState) (d0 : ℤ) : List ℤ → StreakState
  | [] => st
  | p :: rest => run_incremental_closes (close_session_streak_step d0 p st) (d0 + 1) rest

/-- The rows the `_recalculate_streaks_from_history` query returns for one
user, derived from the same per-day history: the dates with `poops_n > 0`,
in ascending date order (one session per day, by the session-uniqueness
invariant). -/
def active_days (d0 : ℤ) : List ℤ → List ℤ
  | [] => []
  | p :: rest => if 0 < p then d0 :: active_days (d0 + 1) rest else active_days (d0 + 1) rest

/-- The deduplication loop of `_recalculate_streaks_from_history`
(`if not days or days[-1] != day: days.append(day)`), after the first
kept element: `lastKept` is `days[-1]`. -/
def dedupe_days_from (lastKept : ℤ) : List ℤ → List ℤ
  | [] => []
  | d :: rest =>
      if d = lastKept then dedupe_days_from lastKept rest
      else d :: dedupe_days_from d rest

/-- The full deduplication loop, starting from the empty `days` list. -/
def dedupe_days : List ℤ → List ℤ
  | [] => []
  | d :: rest => d :: dedupe_days_from d rest

/-- The trailing-run loop of `_recalculate_streaks_from_history`
(`trailing = 1; idx = len(days) - 2; while idx >= 0 and days[idx] ==
days[idx+1] - 1day: trailing += 1`), expressed on the reversed `days`
list: the head is `days[-1]` and each step compares the next element with
its successor minus one day. -/
def trailing_run_rev : List ℤ → ℤ
  | [] => 0
  | [_] => 1
  | a :: b :: rest => if b = a - 1 then trailing_run_rev (b :: rest) + 1 else 1

/-- Embeds the per-user body of
`scheduler_service._recalculate_streaks_from_history`: `rows` are the
ascending activity dates the query returned for the user (strictly before
`today`).  When the deduplicated `days` list is empty the row is reset to
`(0, None)`; otherwise `last_day = days[-1]`, the trailing-run loop counts
the maximal run of consecutive days ending at `last_day`, and
`current_streak` is that count exactly when `last_day` is yesterday
(`today - 1`).  Yields the `(current_streak, last_poop_date)` the repair
writes. -/
def recalculate_streak_from_history (today : ℤ) (rows : List ℤ) : StreakState :=
  match (dedupe_days rows).getLast? with
  | none => { current_streak := 0, last_poop_date := none }
  | some last_day =>
      { current_streak :=
          if last_day = today - 1 then trailing_run_rev (dedupe_days rows).reverse else 0,
        last_poop_date := some last_day }

/-! ### Database rows

Row structures carry exactly the columns the verified services read or
write (wall-clock audit timestamps such as `start_at`, `end_at`,
`updated_at` are not read by any verified code path and are omitted). -/

/-- A `Session` row as used by the scheduler (`models.Session`). -/
structure SessRec where
  session_id : ℤ
  chat_id : ℤ
  session_date : ℤ
  status : String
deriving DecidableEq, Repr

/-- A `SessionMessage` row: `(session_id, kind) -> message_id`. -/
structure SessionMessageRec where
  session_id : ℤ
  kind : String
  message_id : ℤ
deriving DecidableEq, Repr

/-- A `CommandMessage` row: `(chat_id, user_id, command, session_date) ->
message_id`; the scheduler's idempotency/correlation store. -/
structure CommandMessageRec where
  chat_id : ℤ
  user_id : ℤ
  command : String
  session_date : ℤ
  message_id : ℤ
deriving DecidableEq, Repr

/-- A `ChatMember` row. -/
structure ChatMemberRec where
  chat_id : ℤ
  user_id : ℤ
  joined_at : ℤ
deriving DecidableEq, Repr

/-- A `User` row. -/
structure UserRec where
  user_id : ℤ
  username : Option String
  first_name : Option String
  last_name : Option String
deriving DecidableEq, Repr

/-- A `SessionUserState` row. -/
structure SessionUserStateRec where
  session_id : ℤ
  user_id : ℤ
  poops_n : ℤ
  achievement_text : Option String
  remind_22 : Bool
  bristol : Option ℤ
  feeling : Option String
deriving DecidableEq, Repr

/-- A `UserStreak` row. -/
structure UserStreakRec where
  chat_id : ℤ
  user_id : ℤ
  current_streak : ℤ
  last_poop_date : Option ℤ
deriving DecidableEq, Repr

/-- The database state the verified services touch.  Tables are lists of
rows; primary-key lookups (`db.get`) are first-match searches, and
`next_session_id` models the `sessions` autoincrement sequence. -/
structure DB where
  sessions : List SessRec
  next_session_id : ℤ
  session_messages : List SessionMessageRec
  command_messages : List CommandMessageRec
  chat_members : List ChatMemberRec
  users : List UserRec
  session_user_states : List SessionUserStateRec
  user_streaks : List UserStreakRec
  poop_events : List (ℤ × ℤ × ℤ)
deriving DecidableEq, Repr

/-- Truthiness of Python `Optional[int]`: `None` and `0` are falsy. -/
def optionalIntTruthy : Option ℤ → Bool
  | none => false
  | some n => decide (n ≠ 0)

/-- Truthiness of Python `Optional[str]`: `None` and `""` are falsy. -/
def strTruthy : Option String → Bool
  | none => false
  | some s => decide (s ≠ "")

/-- Insert into a sorted list, `le a b` meaning `a` may precede `b`. -/
def insertSortedBy {α : Type} (le : α → α → Bool) : α → List α → List α
  | a, [] => [a]
  | a, b :: rest => if le a b then a :: b :: rest else b :: insertSortedBy le a rest

/-- Insertion sort; embeds the deterministic `ORDER BY` of the queries. -/
def sortBy {α : Type} (le : α → α → Bool) : List α → List α
  | [] => []
  | a :: rest => insertSortedBy le a (sortBy le rest)

/-! ### Row accessors (`repo_service`, `command_message_service`) -/

/-- `db.get(Session, session_id)`. -/
def dbGetSession (db : DB) (session_id : ℤ) : Option SessRec :=
  db.sessions.find? (fun s => decide (s.session_id = session_id))

/-- `db.get(User, user_id)` / the user-map lookups of the text builders. -/
def dbGetUser (db : DB) (user_id : ℤ) : Option UserRec :=
  db.users.find? (fun u => decide (u.user_id = user_id))

/-- The primary-key predicate of the `SessionUserState` table. -/
def susKey (session_id user_id : ℤ) (s : SessionUserStateRec) : Bool :=
  decide (s.session_id = session_id ∧ s.user_id = user_id)

/-- `db.get(SessionUserState, {session_id, user_id})`. -/
def dbGetSessionUserState (db : DB) (session_id user_id : ℤ) : Option SessionUserStateRec :=
  db.session_user_states.find? (susKey session_id user_id)

/-- Embeds `repo_service.get_session_message_id`. -/
def get_session_message_id (db : DB) (session_id : ℤ) (kind : String) : Option ℤ :=
  (db.session_messages.find? (fun r => decide (r.session_id = session_id ∧ r.kind = kind))).map
    (fun r => r.message_id)

/-- The primary-key predicate of the `CommandMessage` table. -/
def cmKey (chat_id user_id : ℤ) (command : String) (session_date : ℤ)
    (r : CommandMessageRec) : Bool :=
  decide (r.chat_id = chat_id ∧ r.user_id = user_id ∧ r.command = command ∧
    r.session_date = session_date)

/-- Embeds `command_message_service.get_command_message_id`. -/
def get_command_message_id (db : DB) (chat_id user_id : ℤ) (command : String)
    (session_date : ℤ) : Option ℤ :=
  (db.command_messages.find? (cmKey chat_id user_id command session_date)).map
    (fun r => r.message_id)

/-- Update-in-place of the first `CommandMessage` row matching the key
(`row.message_id = message_id` on the fetched ORM row). -/
def setCmFirst (chat_id user_id : ℤ) (command : String) (session_date message_id : ℤ) :
    List CommandMessageRec → List CommandMessageRec
  | [] => []
  | r :: rest =>
      if cmKey chat_id user_id command session_date r then
        { r with message_id := message_id } :: rest
      else r :: setCmFirst chat_id user_id command session_date message_id rest

/-- Embeds `command_message_service.set_command_message_id`: insert the row
if the key is absent, otherwise update its `message_id` in place. -/
def set_command_message_id (db : DB) (chat_id user_id : ℤ) (command : String)
    (session_date message_id : ℤ) : DB :=
  match db.command_messages.find? (cmKey chat_id user_id command session_date) with
  | none =>
      { db with command_messages :=
          db.command_messages ++ [⟨chat_id, user_id, command, session_date, message_id⟩] }
  | some _ =>
      { db with command_messages :=
          setCmFirst chat_id user_id command session_date message_id db.command_messages }

/-- The key predicate of `get_or_create_session`'s select. -/
def session_key (chat_id session_date : ℤ) (s : SessRec) : Bool :=
  decide (s.chat_id = chat_id ∧ s.session_date = session_date)

/-- Embeds `repo_service.get_or_create_session`: return the existing
session for `(chat_id, session_date)`, else insert one new `active` row
(`db.flush` materialises the autoincremented id). -/
def get_or_create_session (db : DB) (chat_id session_date : ℤ) : SessRec × DB :=
  match db.sessions.find? (session_key chat_id session_date) with
  | some sess => (sess, db)
  | none =>
      let sess : SessRec :=
        { session_id := db.next_session_id, chat_id := chat_id,
          session_date := session_date, status := "active" }
      (sess, { db with
                 sessions := db.sessions ++ [sess],
                 next_session_id := db.next_session_id + 1 })

/-- The `Session`-table effect of `scheduler_service._close_session`: no-op
when the row is missing or already closed, otherwise the row's status
becomes "closed" (its `end_at` timestamp is not modelled; the streak and
message-locking effects act on other tables). -/
def close_session_mark (db : DB) (session_id : ℤ) : DB :=
  match dbGetSession db session_id with
  | none => db
  | some sess =>
      if sess.status = "closed" then db
      else
        { db with sessions := db.sessions.map (fun s =>
            if s.session_id = session_id then { s with status := "closed" } else s) }

/-! ### Transport (the chat platform, at its interface)

`send` allocates a fresh message id; `edit` reports `notFound` for an id
that does not exist and `notModified` for an edit to identical content.
`sent_log` records every send performed (newest first). -/

/-- Outcome of a transport edit call. -/
inductive EditOutcome where
  | ok
  | notModified
  | notFound
deriving DecidableEq, Repr

/-- Transport state: live messages `(message_id, chat_id, text)`, the send
counter, and the log of performed sends. -/
structure Transport where
  next_message_id : ℤ
  messages : List (ℤ × ℤ × String)
  sent_log : List ℤ
deriving DecidableEq, Repr

/-- `bot.send_message`: allocates the next message id. -/
def transport_send (tr : Transport) (chat_id : ℤ) (text : String) : ℤ × Transport :=
  (tr.next_message_id,
   { next_message_id := tr.next_message_id + 1,
     messages := tr.messages ++ [(tr.next_message_id, chat_id, text)],
     sent_log := tr.next_message_id :: tr.sent_log })

/-- `bot.edit_message_text`: `notFound` when the id is gone, `notModified`
when the content is identical, otherwise replace the text. -/
def transport_edit (tr : Transport) (message_id : ℤ) (text : String) :
    EditOutcome × Transport :=
  match tr.messages.find? (fun m => decide (m.1 = message_id)) with
  | none => (.notFound, tr)
  | some m =>
      if m.2.2 = text then (.notModified, tr)
      else (.ok, { tr with messages := tr.messages.map (fun m2 =>
          if m2.1 = message_id then (m2.1, m2.2.1, text) else m2) })

/-- Embeds `scheduler_service._safe_send_message` (the bounded
`RetryAfter` retry loop is invisible for a deterministic transport). -/
def safe_send_message (tr : Transport) (chat_id : ℤ) (text : String) : ℤ × Transport :=
  transport_send tr chat_id text

/-- Embeds `scheduler_service._safe_edit_message_text`: "message is not
modified" and "message to edit not found" are swallowed and yield `None`;
a successful edit yields the edited message. -/
def safe_edit_message_text (tr : Transport) (chat_id message_id : ℤ) (text : String) :
    Option ℤ × Transport :=
  match transport_edit tr message_id text with
  | (.ok, tr2) => (some message_id, tr2)
  | (.notModified, tr2) => (none, tr2)
  | (.notFound, tr2) => (none, tr2)

/-! ### Reminder text builders (`reminder_service`, `q1_service.mention`) -/

def LATE_REMINDER_COMMAND : String := "late_reminder"

def REMINDER22_COMMAND : String := "reminder22"

def REMINDER22_ACK_COMMAND : String := "reminder22_ack"

/-- Embeds `q1_service.mention`. -/
def mention (u : UserRec) : String :=
  if strTruthy u.username then "@" ++ u.username.getD ""
  else
    let name := (u.first_name.getD "").trim
    if name = "" then "Безымянный" else name

/-- Embeds `reminder_service._user_mention_html`. -/
def user_mention_html (u : Option UserRec) (user_id : ℤ) : String :=
  if (match u with | some user => strTruthy user.username | none => false) then
    "@" ++ ((u.bind (fun x => x.username)).getD "")
  else
    let first := (u.bind (fun x => x.first_name)).getD ""
    let last := (u.bind (fun x => x.last_name)).getD ""
    let parts := ([first, last].filter
      (fun x => decide (x ≠ "") && decide (x.trim ≠ ""))).map String.trim
    let full_name0 := (String.intercalate " " parts).trim
    let full_name := if full_name0 = "" then "Пользователь" else full_name0
    "<a href=\"tg://user?id=" ++ toString user_id ++ "\">" ++ full_name ++ "</a>"

/-- The chat's members ordered by `joined_at` ascending. -/
def chat_members_ordered (db : DB) (chat_id : ℤ) : List ChatMemberRec :=
  sortBy (fun a b => decide (a.joined_at ≤ b.joined_at))
    (db.chat_members.filter (fun m => decide (m.chat_id = chat_id)))

/-- Embeds `reminder_service.build_late_reminder_text`: `None` when the
session is missing, the chat has no members, or nobody is left to remind
(every member has positive `poops_n`). -/
def build_late_reminder_text (db : DB) (session_id : ℤ) : Option String :=
  match dbGetSession db session_id with
  | none => none
  | some sess =>
      let members := chat_members_ordered db sess.chat_id
      if members.isEmpty then none
      else
        let member_ids := members.map (fun m => m.user_id)
        let debtors := member_ids.filter (fun uid =>
          match dbGetSessionUserState db session_id uid with
          | none => true
          | some st => decide (st.poops_n ≤ 0))
        if debtors.isEmpty then none
        else
          some (String.intercalate "\n"
            ("⏳ До закрытия сессии осталось немного времени. Кто ещё не отметился:"
              :: debtors.map (fun uid => user_mention_html (dbGetUser db uid) uid)))

/-- Embeds `reminder_service.build_reminder_22_text`: `None` when the
session is missing or nobody subscribed via `remind_22`. -/
def build_reminder_22_text (db : DB) (session_id : ℤ) : Option String :=
  match dbGetSession db session_id with
  | none => none
  | some sess =>
      let rows := sortBy (fun a b => decide (a.user_id ≤ b.user_id))
        (db.session_user_states.filter
          (fun s => decide (s.session_id = session_id) && s.remind_22))
      if rows.isEmpty then none
      else
        let acked := (db.command_messages.filter (fun r =>
            decide (r.chat_id = sess.chat_id ∧ r.command = REMINDER22_ACK_COMMAND ∧
              r.session_date = sess.session_date))).map (fun r => r.user_id)
        let lines := rows.map (fun st =>
          let status := if acked.contains st.user_id then "✅" else "❓"
          user_mention_html (dbGetUser db st.user_id) st.user_id ++ " " ++ status ++
            " 💩(" ++ toString st.poops_n ++ ")")
        some (String.intercalate "\n"
          ("⏰ А вот и 22:00. Ну что ребята, покакали?" :: lines))

/-! ### Notification dispatchers (`scheduler_service`)

Presentation-only arguments of the transport calls (reply markup,
`parse_mode`, `reply_to_message_id`) are not carried by the transport
embedding; everything that gates a send or a correlation write is. -/

/-- Embeds `scheduler_service._send_late_reminder`. -/
def send_late_reminder (db : DB) (tr : Transport) (chat_id session_id : ℤ) :
    DB × Transport :=
  if !optionalIntTruthy (get_session_message_id db session_id "Q1") then (db, tr)
  else
    match dbGetSession db session_id with
    | none => (db, tr)
    | some sess =>
        if (get_command_message_id db chat_id 0 LATE_REMINDER_COMMAND
            sess.session_date).isSome then (db, tr)
        else
          match build_late_reminder_text db session_id with
          | none => (db, tr)
          | some text =>
              let sent := safe_send_message tr chat_id text
              (set_command_message_id db chat_id 0 LATE_REMINDER_COMMAND
                sess.session_date sent.1, sent.2)

/-- Embeds `scheduler_service._send_reminder_22`. -/
def send_reminder_22 (db : DB) (tr : Transport) (chat_id session_id : ℤ) :
    DB × Transport :=
  if !optionalIntTruthy (get_session_message_id db session_id "Q1") then (db, tr)
  else
    match dbGetSession db session_id with
    | none => (db, tr)
    | some sess =>
        if (get_command_message_id db chat_id 0 REMINDER22_COMMAND
            sess.session_date).isSome then (db, tr)
        else
          match build_reminder_22_text db session_id with
          | none => (db, tr)
          | some text =>
              let sent := safe_send_message tr chat_id text
              (set_command_message_id db chat_id 0 REMINDER22_COMMAND
                sess.session_date sent.1, sent.2)

/-- Embeds `scheduler_service._streak_rank_label`. -/
def streak_rank_label (days : ℤ) : String :=
  if 365 ≤ days then "🌟 Легенда стрика"
  else if 180 ≤ days then "👑 Полугодовой чемпион"
  else if 90 ≤ days then "💪 Квартальный титан"
  else if 30 ≤ days then "🏅 Месячный монолит"
  else if 7 ≤ days then "🔥 Железная неделя"
  else "👏 Держит ритм"

/-- Embeds `scheduler_service._build_streak_praise_block`: members of the
chat with a positive streak (inner joins to `ChatMember` and `User`),
ordered streak-descending then user-id-ascending, limited to 10. -/
def build_streak_praise_block (db : DB) (chat_id : ℤ) : Option String :=
  let rows0 := db.user_streaks.filter
    (fun s => decide (s.chat_id = chat_id ∧ 0 < s.current_streak))
  let rows1 := rows0.filter (fun s =>
    (db.chat_members.find?
      (fun m => decide (m.chat_id = s.chat_id ∧ m.user_id = s.user_id))).isSome)
  let rows2 := rows1.filterMap (fun s => (dbGetUser db s.user_id).map (fun u => (s, u)))
  let rows := (sortBy (fun a b =>
      decide (b.1.current_streak < a.1.current_streak ∨
        (a.1.current_streak = b.1.current_streak ∧ a.1.user_id ≤ b.1.user_id)))
    rows2).take 10
  if rows.isEmpty then none
  else
    let lines := rows.filterMap (fun p =>
      let days := p.1.current_streak
      if days ≤ 0 then none
      else some ("- " ++ streak_rank_label days ++ ": " ++ mention p.2 ++ " — " ++
        toString days ++ " дн."))
    let all_lines := "👏 Кто держит стрик:" :: lines
    if 1 < all_lines.length then some (String.intercalate "\n" all_lines) else none

/-- The inner `_send(kind, period, title)` closure of
`scheduler_service._send_periodic_stats`.  `buildStats` stands for the
imported `stats_service.build_stats_text_chat` (presentation, out of
scope, deterministic in the database state). -/
def send_stats_kind (buildStats : DB → ℤ → ℤ → String → String)
    (db : DB) (tr : Transport) (chat_id local_date : ℤ)
    (kind period title : String) : DB × Transport :=
  if (get_command_message_id db chat_id 0 kind local_date).isSome then (db, tr)
  else
    let text0 := title ++ "\n\n" ++ buildStats db chat_id local_date period
    let text :=
      match build_streak_praise_block db chat_id with
      | some praise => text0 ++ "\n\n" ++ praise
      | none => text0
    let sent := safe_send_message tr chat_id text
    (set_command_message_id db chat_id 0 kind local_date sent.1, sent.2)

/-- The weekly gate of `_send_periodic_stats`: Sunday is `weekday() == 6`. -/
def send_stats_weekly (buildStats : DB → ℤ → ℤ → String → String)
    (s : DB × Transport) (chat_id local_date : ℤ) : DB × Transport :=
  if dateWeekday local_date = 6 then
    send_stats_kind buildStats s.1 s.2 chat_id local_date "weekly_stats" "week"
      "📉 Итоги недели"
  else s

/-- The monthly gate of `_send_periodic_stats`. -/
def send_stats_monthly (buildStats : DB → ℤ → ℤ → String → String)
    (s : DB × Transport) (chat_id local_date : ℤ) : DB × Transport :=
  if is_last_day_of_month local_date then
    send_stats_kind buildStats s.1 s.2 chat_id local_date "monthly_stats" "month"
      "📉 Итоги месяца"
  else s

/-- The yearly gate of `_send_periodic_stats`: December 31. -/
def send_stats_yearly (buildStats : DB → ℤ → ℤ → String → String)
    (s : DB × Transport) (chat_id local_date : ℤ) : DB × Transport :=
  if dateMonth local_date = 12 ∧ dateDay local_date = 31 then
    send_stats_kind buildStats s.1 s.2 chat_id local_date "yearly_stats" "year"
      "📉 Итоги года"
  else s

/-- Embeds `scheduler_service._send_periodic_stats`: weekly on Sunday
(`weekday() == 6`), monthly on the last day of the month, yearly on
December 31, run in that order, each guarded by its own correlation
entry. -/
def send_periodic_stats (buildStats : DB → ℤ → ℤ → String → String)
    (db : DB) (tr : Transport) (chat_id local_date : ℤ) : DB × Transport :=
  send_stats_yearly buildStats
    (send_stats_monthly buildStats
      (send_stats_weekly buildStats (db, tr) chat_id local_date)
      chat_id local_date)
    chat_id local_date

/-- Embeds `scheduler_service._send_holiday_notice_if_needed`. -/
def send_holiday_notice_if_needed (db : DB) (tr : Transport)
    (chat_id session_id local_date : ℤ) : DB × Transport :=
  let holiday_text : Option String :=
    if dateMonth local_date = 2 ∧ dateDay local_date = 9 then
      some "Сегодня Национальный день какашек (National Poop Day)."
    else if dateMonth local_date = 11 ∧ dateDay local_date = 19 then
      some "Сегодня Всемирный день туалета (World Toilet Day)."
    else none
  match holiday_text with
  | none => (db, tr)
  | some text =>
      if !(optionalIntTruthy (get_session_message_id db session_id "Q1")
          && optionalIntTruthy (get_session_message_id db session_id "Q2")
          && optionalIntTruthy (get_session_message_id db session_id "Q3")) then (db, tr)
      else if (get_command_message_id db chat_id 0 "holiday_notice" local_date).isSome then
        (db, tr)
      else
        let sent := safe_send_message tr chat_id text
        (set_command_message_id db chat_id 0 "holiday_notice" local_date sent.1, sent.2)

/-- Embeds `scheduler_service._refresh_current_q1_view`.  `renderQ1` stands
for the imported `q1_service.render_q1` (presentation, out of scope); the
keyboard arguments (`has_any_members`, `show_remind`) select presentation-
only reply markup not carried by the transport embedding. -/
def refresh_current_q1_view (renderQ1 : DB → ℤ → ℤ → ℤ → String)
    (db : DB) (tr : Transport) (chat_id session_date : ℤ) : DB × Transport :=
  match db.sessions.find? (session_key chat_id session_date) with
  | none => (db, tr)
  | some sess =>
      if sess.status = "closed" then (db, tr)
      else
        let q1opt := get_session_message_id db sess.session_id "Q1"
        if !optionalIntTruthy q1opt then (db, tr)
        else
          let text := renderQ1 db chat_id sess.session_id session_date
          ((db, (safe_edit_message_text tr chat_id (q1opt.getD 0) text).2) : DB × Transport)

/-! ### Rate limiter (`rate_limit_service.check_rate_limit`) -/

/-- The `RateLimit` table: `(chat_id, user_id, scope) -> last_action_at`.
Timestamps are an abstract integer clock (`datetime.utcnow()` injected as
`now`); `cooldown` is in the same unit. -/
abbrev RateLimitTable : Type := List ((ℤ × ℤ × String) × ℤ)

/-- Primary-key lookup in the `RateLimit` table. -/
def rlLookup (table : RateLimitTable) (key : ℤ × ℤ × String) : Option ℤ :=
  (List.find? (fun e => decide (e.1 = key)) table).map (fun e => e.2)

/-- Update-in-place of the first row with the key. -/
def rlSet (key : ℤ × ℤ × String) (now : ℤ) : RateLimitTable → RateLimitTable
  | [] => []
  | e :: rest => if e.1 = key then (key, now) :: rest else e :: rlSet key now rest

/-- Embeds `rate_limit_service.check_rate_limit`: `True` means allowed.
A missing row is created stamped `now` and allowed; otherwise the action
is blocked when `now - last_action_at < cooldown`, else allowed with the
stamp updated in the same operation. -/
def check_rate_limit (table : RateLimitTable) (now : ℤ) (chat_id user_id : ℤ)
    (scope : String) (cooldown_seconds : ℤ) : Bool × RateLimitTable :=
  match rlLookup table (chat_id, user_id, scope) with
  | none => (true, table ++ [((chat_id, user_id, scope), now)])
  | some last =>
      if now - last < cooldown_seconds then (false, table)
      else (true, rlSet (chat_id, user_id, scope) now table)

/-! ### Tick sweep (`scheduler_service._tick`) -/

/-- Outcome of `_process_chat` for one chat: normal return,
`TelegramForbiddenError`, or any other exception. -/
inductive ProcessOutcome where
  | ok
  | forbidden
  | failed
deriving DecidableEq, Repr

/-- What one tick leaves behind: every chat it attempted (in order), the
chats it disabled after `TelegramForbiddenError`, and the chats whose
exception it logged. -/
structure TickLog where
  attempted : List ℤ
  disabled : List ℤ
  errors_logged : List ℤ
deriving DecidableEq, Repr

/-- Embeds the per-chat loop of `scheduler_service._tick`: each enabled
chat is processed inside its own try; `TelegramForbiddenError` disables
the chat, any other exception is logged, and in every case the loop
continues with the next chat. -/
def tick_sweep (chats : List ℤ) (run : ℤ → ProcessOutcome) : TickLog :=
  match chats with
  | [] => { attempted := [], disabled := [], errors_logged := [] }
  | c :: rest =>
      let t := tick_sweep rest run
      match run c with
      | .ok => { attempted := c :: t.attempted, disabled := t.disabled,
                 errors_logged := t.errors_logged }
      | .forbidden => { attempted := c :: t.attempted, disabled := c :: t.disabled,
                        errors_logged := t.errors_logged }
      | .failed => { attempted := c :: t.attempted, disabled := t.disabled,
                     errors_logged := c :: t.errors_logged }

/-! ### `q1_service.apply_plus` -/

/-- Embeds `q1_service._achievement_pool`. -/
def achievement_pool (n : ℤ) : List String :=
  if n = 1 then ["Стартанул", "Разминка", "Первый пошёл"]
  else if 2 ≤ n ∧ n ≤ 3 then ["Стабильный", "По графику", "Режимный"]
  else if 4 ≤ n ∧ n ≤ 5 then ["Говнопушка!", "Турборежим", "Двигатель прогрет"]
  else if 6 ≤ n ∧ n ≤ 7 then ["Штормит", "Конвейер", "Многоходовочка"]
  else if 8 ≤ n ∧ n ≤ 10 then ["Легенда", "Портал открыт", "Гига-режим"]
  else []

/-- Embeds `poop_event_service.create_event`: insert-or-ignore on the
`(session_id, user_id, event_n)` unique index. -/
def create_event (db : DB) (session_id user_id event_n : ℤ) : DB :=
  if db.poop_events.contains (session_id, user_id, event_n) then db
  else { db with poop_events := db.poop_events ++ [(session_id, user_id, event_n)] }

/-- Update-in-place of the first `SessionUserState` row with the key. -/
def setSusFirst (session_id user_id : ℤ) (new : SessionUserStateRec) :
    List SessionUserStateRec → List SessionUserStateRec
  | [] => []
  | r :: rest =>
      if susKey session_id user_id r then new :: rest
      else r :: setSusFirst session_id user_id new rest

/-- The part of `q1_service.apply_plus` after the get-or-create of the
`SessionUserState` row `st`: refuse at the cap of 10; otherwise increment
`poops_n`, record the poop event, fix the achievement text, and answer by
the new count.  `choice` stands for `random.choice` (an arbitrary
selection from a non-empty pool). -/
def apply_plus_body (choice : List String → String) (db : DB)
    (session_id user_id : ℤ) (st : SessionUserStateRec) : (Bool × String) × DB :=
  if 10 ≤ st.poops_n then ((false, "Я тебе не верю"), db)
  else
    let prev := st.poops_n
    let poops1 := prev + 1
    let db2 := create_event db session_id user_id poops1
    let ach : Option String :=
      if prev = 0 ∧ 0 < poops1 then
        (let pool := achievement_pool poops1
         if pool.isEmpty then none else some (choice pool))
      else if 0 < poops1 ∧ !strTruthy st.achievement_text then
        (let pool := achievement_pool poops1
         if pool.isEmpty then none else some (choice pool))
      else st.achievement_text
    let st2 := { st with poops_n := poops1, achievement_text := ach }
    let db3 := { db2 with
        session_user_states := setSusFirst session_id user_id st2 db2.session_user_states }
    if 1 ≤ poops1 ∧ poops1 ≤ 3 then ((true, "Принял"), db3)
    else if 4 ≤ poops1 ∧ poops1 ≤ 7 then ((true, "Ох, вот это ты даёшь"), db3)
    else ((true, "WOW"), db3)

/-- Embeds `q1_service.apply_plus`: fetch the `SessionUserState` row,
creating it (with `poops_n = 0`, flushed) when missing, then run the
update body on it. -/
def apply_plus (choice : List String → String) (db : DB) (session_id user_id : ℤ) :
    (Bool × String) × DB :=
  match dbGetSessionUserState db session_id user_id with
  | some st => apply_plus_body choice db session_id user_id st
  | none =>
      let fresh : SessionUserStateRec :=
        { session_id := session_id, user_id := user_id, poops_n := 0,
          achievement_text := none, remind_22 := false, bristol := none, feeling := none }
      apply_plus_body choice
        { db with session_user_states := db.session_user_states ++ [fresh] }
        session_id user_id fresh

/-! ### Invariants and concrete evaluation states -/

/-- The session-uniqueness invariant of §3: at most one `Session` row per
`(chat_id, session_date)`. -/
def session_unique (db : DB) : Prop :=
  ∀ c d : ℤ, (db.sessions.filter (session_key c d)).length ≤ 1

/-- A state with the 2023-02-09 (ordinal 738560) session of chat 5 already
holding correlation entries for the late reminder and the holiday notice. -/
def c3_db : DB :=
  { sessions := [⟨1, 5, 738560, "active"⟩],
    next_session_id := 2,
    session_messages := [⟨1, "Q1", 100⟩, ⟨1, "Q2", 101⟩, ⟨1, "Q3", 102⟩],
    command_messages := [⟨5, 0, "late_reminder", 738560, 110⟩,
                         ⟨5, 0, "holiday_notice", 738560, 111⟩],
    chat_members := [], users := [], session_user_states := [],
    user_streaks := [], poop_events := [] }

/-- Transport state matching `c3_db`. -/
def c3_tr : Transport := { next_message_id := 200, messages := [], sent_log := [] }

/-- A state whose Q1 correlation entry (message 100) is stale: the
transport no longer has message 100. -/
def c6_db : DB :=
  { sessions := [⟨1, 5, 700000, "active"⟩],
    next_session_id := 2,
    session_messages := [⟨1, "Q1", 100⟩],
    command_messages := [], chat_members := [], users := [],
    session_user_states := [], user_streaks := [], poop_events := [] }

/-- Transport with no live messages at all (so editing 100 is NotFound). -/
def c6_tr : Transport := { next_message_id := 200, messages := [], sent_log := [] }

/-- A concrete stand-in for the imported `render_q1` presentation call. -/
def c6_render : DB → ℤ → ℤ → ℤ → String := fun _ _ _ _ => "Q1 text"

/-- A state in which the sole chat member already has positive activity,
so the late-reminder builder has nobody left to remind. -/
def c7_db : DB :=
  { sessions := [⟨1, 5, 700000, "active"⟩],
    next_session_id := 2,
    session_messages := [⟨1, "Q1", 100⟩],
    command_messages := [],
    chat_members := [⟨5, 42, 0⟩],
    users := [⟨42, some "alice", none, none⟩],
    session_user_states := [⟨1, 42, 1, none, false, none, none⟩],
    user_streaks := [], poop_events := [] }

/-- Transport state matching `c7_db`. -/
def c7_tr : Transport := { next_message_id := 200, messages := [], sent_log := [] }

/-- A state whose user 42 already has 10 poops recorded for session 1. -/
def c10_db : DB :=
  { sessions := [⟨1, 5, 700000, "active"⟩],
    next_session_id := 2,
    session_messages := [], command_messages := [], chat_members := [],
    users := [],
    session_user_states := [⟨1, 42, 10, some "Легенда", false, none, none⟩],
    user_streaks := [], poop_events := [] }

/-! ### Helper lemmas for the streak calculator -/

theorem run_incremental_closes_append (st : StreakState) (d0 : ℤ) (l1 l2 : List ℤ) :
    run_incremental_closes st d0 (l1 ++ l2)
      = run_incremental_closes (run_incremental_closes st d0 l1) (d0 + l1.length) l2 := by
  induction l1 generalizing st d0 with
  | nil => simp [run_incremental_closes]
  | cons p rest ih =>
      simp only [List.cons_append, List.append_eq, run_incremental_closes]
      rw [ih]
      have hcast : d0 + 1 + (rest.length : ℤ) = d0 + ((p :: rest).length : ℤ) := by
        push_cast [List.length_cons]
        ring
      rw [hcast]

theorem active_days_append (d0 : ℤ) (l1 l2 : List ℤ) :
    active_days d0 (l1 ++ l2)
      = active_days d0 l1 ++ active_days (d0 + l1.length) l2 := by
  induction l1 generalizing d0 with
  | nil => simp [active_days]
  | cons p rest ih =>
      have hcast : d0 + 1 + (rest.length : ℤ) = d0 + ((p :: rest).length : ℤ) := by
        push_cast [List.length_cons]
        ring
      by_cases hp : 0 < p
      · simp only [List.cons_append, List.append_eq, active_days, if_pos hp]
        rw [ih, hcast]
      · simp only [List.cons_append, List.append_eq, active_days, if_neg hp]
        rw [ih, hcast]

theorem active_days_mem {x : ℤ} (l : List ℤ) (d0 : ℤ) (hx : x ∈ active_days d0 l) :
    d0 ≤ x ∧ x < d0 + l.length := by
  induction l generalizing d0 with
  | nil => simp [active_days] at hx
  | cons p rest ih =>
      simp only [active_days] at hx
      by_cases hp : 0 < p
      · rw [if_pos hp] at hx
        rcases List.mem_cons.mp hx with rfl | hx
        · simp only [List.length_cons]
          push_cast
          omega
        · have := ih (d0 + 1) hx
          simp only [List.length_cons]
          push_cast
          omega
      · rw [if_neg hp] at hx
        have := ih (d0 + 1) hx
        simp only [List.length_cons]
        push_cast
        omega

theorem active_days_chain (d0 : ℤ) (l : List ℤ) :
    List.Chain' (· < ·) (active_days d0 l) := by
  induction l generalizing d0 with
  | nil => simp [active_days]
  | cons p rest ih =>
      simp only [active_days]
      by_cases hp : 0 < p
      · rw [if_pos hp]
        rw [List.chain'_cons']
        refine ⟨?_, ih (d0 + 1)⟩
        intro b hb
        have hbmem : b ∈ active_days (d0 + 1) rest := List.mem_of_mem_head? hb
        have := active_days_mem rest (d0 + 1) hbmem
        omega
      · rw [if_neg hp]
        exact ih (d0 + 1)

theorem dedupe_days_from_of_chain (l : List ℤ) :
    ∀ d : ℤ, List.Chain' (· < ·) (d :: l) → dedupe_days_from d l = l := by
  induction l with
  | nil => intro d _; rfl
  | cons e rest ih =>
      intro d hchain
      rw [List.chain'_cons] at hchain
      have hde : d < e := hchain.1
      have hne : ¬(e = d) := by omega
      simp only [dedupe_days_from, if_neg hne]
      rw [ih e hchain.2]

theorem dedupe_days_of_chain (l : List ℤ) (h : List.Chain' (· < ·) l) :
    dedupe_days l = l := by
  cases l with
  | nil => rfl
  | cons d rest =>
      simp only [dedupe_days]
      rw [dedupe_days_from_of_chain rest d h]

theorem trailing_run_rev_cons_cons (a b : ℤ) (rest : List ℤ) :
    trailing_run_rev (a :: b :: rest)
      = if b = a - 1 then trailing_run_rev (b :: rest) + 1 else 1 := rfl

theorem recalculate_nil (today : ℤ) :
    recalculate_streak_from_history today [] = ⟨0, none⟩ := rfl

theorem recalculate_of_chain (today : ℤ) (A : List ℤ) (x : ℤ)
    (hchain : List.Chain' (· < ·) A) (hlast : A.getLast? = some x) :
    recalculate_streak_from_history today A
      = ⟨if x = today - 1 then trailing_run_rev A.reverse else 0, some x⟩ := by
  unfold recalculate_streak_from_history
  rw [dedupe_days_of_chain A hchain, hlast]

/-- Closing one more day through the incremental path, with positive
activity, agrees with extending the recompute history by that day. -/
theorem recalc_step_pos (D p : ℤ) (A : List ℤ)
    (hchain : List.Chain' (· < ·) A) (hbound : ∀ x ∈ A, x < D) (hp : 0 < p) :
    close_session_streak_step D p (recalculate_streak_from_history D A)
      = recalculate_streak_from_history (D + 1) (A ++ [D]) := by
  have hchainAD : List.Chain' (· < ·) (A ++ [D]) := by
    rw [List.chain'_append]
    refine ⟨hchain, List.chain'_singleton D, ?_⟩
    intro x hx y hy
    have hxm : x ∈ A := List.mem_of_mem_getLast? hx
    have hyD : D = y := by simpa using hy
    have := hbound x hxm
    omega
  have hlastAD : (A ++ [D]).getLast? = some D := by simp
  rw [recalculate_of_chain (D + 1) (A ++ [D]) D hchainAD hlastAD,
    if_pos (by ring : D = D + 1 - 1)]
  rcases hrev : A.reverse with _ | ⟨x, t⟩
  · have hA : A = [] := by simpa using congrArg List.reverse hrev
    subst hA
    rw [recalculate_nil]
    unfold close_session_streak_step
    rw [if_pos hp, if_neg (by simp : ¬(none : Option ℤ) = some (D - 1))]
    simp [trailing_run_rev]
  · have hlastA : A.getLast? = some x := by
      rw [← List.head?_reverse, hrev]
      rfl
    have hrevAD : (A ++ [D]).reverse = D :: x :: t := by simp [hrev]
    rw [recalculate_of_chain D A x hchain hlastA, hrevAD,
      trailing_run_rev_cons_cons]
    unfold close_session_streak_step
    rw [if_pos hp]
    by_cases hx : x = D - 1
    · rw [if_pos hx, if_pos hx,
        if_pos (show (some x : Option ℤ) = some (D - 1) by rw [hx])]
      rw [hrev]
    · rw [if_neg hx, if_neg hx,
        if_neg (show ¬(some x : Option ℤ) = some (D - 1) by simpa using hx)]

/-- Closing one more day through the incremental path, with zero activity,
agrees with the recompute run a day later on the unchanged history. -/
theorem recalc_step_nonpos (D p : ℤ) (A : List ℤ)
    (hchain : List.Chain' (· < ·) A) (hbound : ∀ x ∈ A, x < D) (hp : ¬0 < p) :
    close_session_streak_step D p (recalculate_streak_from_history D A)
      = recalculate_streak_from_history (D + 1) A := by
  rcases hlastA : A.getLast? with _ | x
  · have hA : A = [] := List.getLast?_eq_none_iff.mp hlastA
    subst hA
    rw [recalculate_nil, recalculate_nil]
    unfold close_session_streak_step
    rw [if_neg hp]
  · have hxA : x ∈ A := List.mem_of_mem_getLast? (by rw [hlastA]; rfl)
    have hxD : x < D := hbound x hxA
    rw [recalculate_of_chain D A x hchain hlastA,
      recalculate_of_chain (D + 1) A x hchain hlastA]
    unfold close_session_streak_step
    rw [if_neg hp, if_neg (show ¬x = D + 1 - 1 by omega)]

/-- C1: for every tenant history in which every logical day up to yesterday
was closed through the incremental path (`_close_session`'s streak update),
the recompute-from-history repair (`_recalculate_streaks_from_history`) run
for today leaves the user's `(current_streak, last_poop_date)` exactly equal
to what the incremental path already produced.  The history is the list of
the user's per-day `poops_n` values for the consecutive days
`d0, d0 + 1, …`, today being the day after the last one. -/
theorem streak_recompute_matches_incremental (d0 : ℤ) (hist : List ℤ) :
    run_incremental_closes ⟨0, none⟩ d0 hist
      = recalculate_streak_from_history (d0 + hist.length) (active_days d0 hist) := by
  induction hist using List.reverseRecOn with
  | nil => rfl
  | append_singleton l p ih =>
      rw [run_incremental_closes_append, ih, active_days_append]
      have hlen : d0 + ((l ++ [p]).length : ℤ) = d0 + l.length + 1 := by
        push_cast [List.length_append, List.length_cons, List.length_nil]
        ring
      rw [hlen]
      have hchain := active_days_chain d0 l
      have hbound : ∀ x ∈ active_days d0 l, x < d0 + l.length :=
        fun x hx => (active_days_mem l d0 hx).2
      simp only [run_incremental_closes]
      by_cases hp : 0 < p
      · have hsingle : active_days (d0 + (l.length : ℤ)) [p] = [d0 + (l.length : ℤ)] := by
          simp [active_days, hp]
        rw [hsingle]
        exact recalc_step_pos _ _ _ hchain hbound hp
      · have hnone : active_days (d0 + (l.length : ℤ)) [p] = [] := by
          simp [active_days, hp]
        rw [hnone, List.append_nil]
        exact recalc_step_nonpos _ _ _ hchain hbound hp

/-- C2: a user with positive activity on days `D`, `D+1`, `D+3` and zero
activity on `D+2`, whose streak state does not already credit day `D-1`,
ends with `current_streak = 2` after the close of `D+1`, `0` after the
close of `D+2`, and `1` (never `3`) after the close of `D+3`. -/
theorem streak_gap_never_reaches_three (D p0 p1 p3 : ℤ) (st0 : StreakState)
    (h0 : st0.last_poop_date ≠ some (D - 1))
    (hp0 : 0 < p0) (hp1 : 0 < p1) (hp3 : 0 < p3) :
    (close_session_streak_step (D + 1) p1
        (close_session_streak_step D p0 st0)).current_streak = 2 ∧
    (close_session_streak_step (D + 2) 0
        (close_session_streak_step (D + 1) p1
          (close_session_streak_step D p0 st0))).current_streak = 0 ∧
    (close_session_streak_step (D + 3) p3
        (close_session_streak_step (D + 2) 0
          (close_session_streak_step (D + 1) p1
            (close_session_streak_step D p0 st0)))).current_streak = 1 := by
  have h1 : close_session_streak_step D p0 st0 = ⟨1, some D⟩ := by
    unfold close_session_streak_step
    rw [if_pos hp0, if_neg h0]
  have h2 : close_session_streak_step (D + 1) p1 ⟨1, some D⟩ = ⟨2, some (D + 1)⟩ := by
    unfold close_session_streak_step
    rw [if_pos hp1, if_pos (show (some D : Option ℤ) = some (D + 1 - 1) by
      rw [show D + 1 - 1 = D by ring])]
    rfl
  have h3 : close_session_streak_step (D + 2) 0 ⟨2, some (D + 1)⟩ = ⟨0, some (D + 1)⟩ := by
    unfold close_session_streak_step
    rw [if_neg (lt_irrefl (0 : ℤ))]
  have h4 : close_session_streak_step (D + 3) p3 ⟨0, some (D + 1)⟩ = ⟨1, some (D + 3)⟩ := by
    unfold close_session_streak_step
    rw [if_pos hp3, if_neg (by simp; omega : ¬(some (D + 1) : Option ℤ) = some (D + 3 - 1))]
  refine ⟨?_, ?_, ?_⟩
  · rw [h1, h2]
  · rw [h1, h2, h3]
  · rw [h1, h2, h3, h4]

/-- Witness for C2 at `D = 10`, all positive counts `1`, fresh streak row. -/
theorem streak_gap_never_reaches_three_witness :
    (close_session_streak_step 11 1
        (close_session_streak_step 10 1 ⟨0, none⟩)).current_streak = 2 ∧
    (close_session_streak_step 12 0
        (close_session_streak_step 11 1
          (close_session_streak_step 10 1 ⟨0, none⟩))).current_streak = 0 ∧
    (close_session_streak_step 13 1
        (close_session_streak_step 12 0
          (close_session_streak_step 11 1
            (close_session_streak_step 10 1 ⟨0, none⟩)))).current_streak = 1 := by
  have := streak_gap_never_reaches_three 10 1 1 1 ⟨0, none⟩
    (by decide) (by decide) (by decide) (by decide)
  norm_num at this ⊢
  exact this

/-! ### C4: session-window classification -/

/-- C4: for every tenant-local instant, `get_session_window` reports the
blocked-transition window exactly when the local clock time lies in
`[23:55, 24:00) ∪ [00:00, 00:05)`; `Open` (the active window) is reported
otherwise, and the boundaries are exact: 23:55 itself is blocked and 00:05
itself is open. -/
theorem session_window_blocked_iff (d : ℤ) (t : PyTime) (hv : t.isValid) :
    ((get_session_window d t).is_blocked_window = true ↔
      (t.toMicro < 5 * 60 * 1000000 ∨ (23 * 60 + 55) * 60 * 1000000 ≤ t.toMicro)) ∧
    (get_session_window d t).is_active_window = !(get_session_window d t).is_blocked_window ∧
    (get_session_window d ⟨23, 55, 0, 0⟩).is_blocked_window = true ∧
    (get_session_window d ⟨0, 5, 0, 0⟩).is_blocked_window = false := by
  obtain ⟨h, m, s, us⟩ := t
  obtain ⟨hh0, hh1, hm0, hm1, hs0, hs1, hu0, hu1⟩ := hv
  refine ⟨?_, ?_, rfl, rfl⟩
  · simp only [get_session_window, timeLt, timeLe, PyTime.toMicro, PyTime.mk.injEq,
      Bool.or_eq_true, decide_eq_true_eq]
    dsimp only at hh0 hh1 hm0 hm1 hs0 hs1 hu0 hu1 ⊢
    split_ifs with hlt hle
    · simp only [true_iff]
      omega
    · simp only [true_iff]
      omega
    · simp only [false_iff]
      push_neg at hlt hle ⊢
      constructor <;> omega
  · simp only [get_session_window]
    split_ifs <;> rfl

/-- Witness for C4 at a concrete date and a valid noon instant. -/
theorem session_window_blocked_iff_witness :
    (⟨12, 0, 0, 0⟩ : PyTime).isValid ∧
    (get_session_window 738560 ⟨0, 5, 0, 0⟩).is_blocked_window = false :=
  ⟨by decide, (session_window_blocked_iff 738560 ⟨12, 0, 0, 0⟩ (by decide)).2.2.2⟩

/-! ### Helper lemmas for the correlation store -/

theorem find?_append_none {α : Type} (p : α → Bool) (l1 l2 : List α)
    (h : l1.find? p = none) : (l1 ++ l2).find? p = l2.find? p := by
  induction l1 with
  | nil => rfl
  | cons a rest ih =>
      cases hpa : p a with
      | true =>
          rw [List.find?_cons_of_pos _ hpa] at h
          exact absurd h (by simp)
      | false =>
          rw [List.find?_cons_of_neg _ (by simp [hpa])] at h
          rw [List.cons_append, List.find?_cons_of_neg _ (by simp [hpa])]
          exact ih h

theorem find?_append_singleton_neg {α : Type} (p : α → Bool) (l : List α) (a : α)
    (ha : ¬p a = true) : (l ++ [a]).find? p = l.find? p := by
  induction l with
  | nil => simp [List.find?_cons_of_neg _ ha]
  | cons b rest ih =>
      cases hb : p b with
      | true =>
          rw [List.cons_append, List.find?_cons_of_pos _ hb, List.find?_cons_of_pos _ hb]
      | false =>
          rw [List.cons_append, List.find?_cons_of_neg _ (by simp [hb]),
            List.find?_cons_of_neg _ (by simp [hb])]
          exact ih

theorem cmKey_mk_self (c u : ℤ) (cmd : String) (d mid : ℤ) :
    cmKey c u cmd d ⟨c, u, cmd, d, mid⟩ = true := by
  simp [cmKey]

theorem cmKey_message_id_irrel (c u : ℤ) (cmd : String) (d mid : ℤ)
    (r : CommandMessageRec) :
    cmKey c u cmd d { r with message_id := mid } = cmKey c u cmd d r := rfl

theorem setCmFirst_find_self (l : List CommandMessageRec) (c u : ℤ) (cmd : String)
    (d mid : ℤ) (h : (l.find? (cmKey c u cmd d)).isSome = true) :
    ((setCmFirst c u cmd d mid l).find? (cmKey c u cmd d)).map
      (fun r => r.message_id) = some mid := by
  induction l with
  | nil => simp at h
  | cons r rest ih =>
      by_cases hk : cmKey c u cmd d r = true
      · simp only [setCmFirst, if_pos hk]
        rw [List.find?_cons_of_pos _ (by rw [cmKey_message_id_irrel]; exact hk)]
        rfl
      · simp only [setCmFirst, if_neg hk]
        rw [List.find?_cons_of_neg _ hk]
        rw [List.find?_cons_of_neg _ hk] at h
        exact ih h

theorem setCmFirst_find_other (l : List CommandMessageRec) (c u : ℤ) (cmd : String)
    (d : ℤ) (c2 u2 : ℤ) (cmd2 : String) (d2 mid : ℤ)
    (hne : ¬(c = c2 ∧ u = u2 ∧ cmd = cmd2 ∧ d = d2)) :
    (setCmFirst c2 u2 cmd2 d2 mid l).find? (cmKey c u cmd d)
      = l.find? (cmKey c u cmd d) := by
  induction l with
  | nil => rfl
  | cons r rest ih =>
      by_cases hk2 : cmKey c2 u2 cmd2 d2 r = true
      · have hk1 : ¬cmKey c u cmd d r = true := by
          simp only [cmKey, decide_eq_true_eq] at hk2 ⊢
          obtain ⟨h1, h2, h3, h4⟩ := hk2
          intro hg
          obtain ⟨g1, g2, g3, g4⟩ := hg
          exact hne ⟨g1.symm.trans h1, g2.symm.trans h2, g3.symm.trans h3,
            g4.symm.trans h4⟩
        simp only [setCmFirst, if_pos hk2]
        rw [List.find?_cons_of_neg _ (by rw [cmKey_message_id_irrel]; exact hk1),
          List.find?_cons_of_neg _ hk1]
      · simp only [setCmFirst, if_neg hk2]
        by_cases hk1 : cmKey c u cmd d r = true
        · rw [List.find?_cons_of_pos _ hk1, List.find?_cons_of_pos _ hk1]
        · rw [List.find?_cons_of_neg _ hk1, List.find?_cons_of_neg _ hk1]
          exact ih

theorem get_command_message_id_set_self (db : DB) (c u : ℤ) (cmd : String) (d mid : ℤ) :
    get_command_message_id (set_command_message_id db c u cmd d mid) c u cmd d
      = some mid := by
  unfold set_command_message_id
  cases hfind : db.command_messages.find? (cmKey c u cmd d) with
  | none =>
      unfold get_command_message_id
      simp only []
      rw [find?_append_none _ _ _ hfind,
        List.find?_cons_of_pos _ (cmKey_mk_self c u cmd d mid)]
      rfl
  | some r =>
      unfold get_command_message_id
      simp only []
      exact setCmFirst_find_self db.command_messages c u cmd d mid (by rw [hfind]; rfl)

theorem get_command_message_id_set_other (db : DB) (c u : ℤ) (cmd : String) (d : ℤ)
    (c2 u2 : ℤ) (cmd2 : String) (d2 mid : ℤ)
    (hne : ¬(c = c2 ∧ u = u2 ∧ cmd = cmd2 ∧ d = d2)) :
    get_command_message_id (set_command_message_id db c2 u2 cmd2 d2 mid) c u cmd d
      = get_command_message_id db c u cmd d := by
  unfold set_command_message_id
  cases hfind : db.command_messages.find? (cmKey c2 u2 cmd2 d2) with
  | none =>
      unfold get_command_message_id
      simp only []
      rw [find?_append_singleton_neg]
      simp only [cmKey, decide_eq_true_eq]
      intro hg
      obtain ⟨g1, g2, g3, g4⟩ := hg
      exact hne ⟨g1.symm, g2.symm, g3.symm, g4.symm⟩
  | some r =>
      unfold get_command_message_id
      simp only []
      rw [setCmFirst_find_other _ _ _ _ _ _ _ _ _ _ hne]

theorem set_command_message_id_sessions (db : DB) (c u : ℤ) (cmd : String) (d mid : ℤ) :
    (set_command_message_id db c u cmd d mid).sessions = db.sessions := by
  unfold set_command_message_id
  cases db.command_messages.find? (cmKey c u cmd d) <;> rfl

theorem set_command_message_id_session_messages (db : DB) (c u : ℤ) (cmd : String)
    (d mid : ℤ) :
    (set_command_message_id db c u cmd d mid).session_messages = db.session_messages := by
  unfold set_command_message_id
  cases db.command_messages.find? (cmKey c u cmd d) <;> rfl

theorem dbGetSession_set_cm (db : DB) (c u : ℤ) (cmd : String) (d mid sid : ℤ) :
    dbGetSession (set_command_message_id db c u cmd d mid) sid = dbGetSession db sid := by
  unfold dbGetSession
  rw [set_command_message_id_sessions]

theorem get_session_message_id_set_cm (db : DB) (c u : ℤ) (cmd : String)
    (d mid sid : ℤ) (kind : String) :
    get_session_message_id (set_command_message_id db c u cmd d mid) sid kind
      = get_session_message_id db sid kind := by
  unfold get_session_message_id
  rw [set_command_message_id_session_messages]

/-! ### Dispatcher no-op and idempotence lemmas -/

theorem send_late_reminder_entry_noop (db : DB) (tr : Transport)
    (chat_id session_id : ℤ) (sess : SessRec)
    (hsess : dbGetSession db session_id = some sess)
    (hE : (get_command_message_id db chat_id 0 LATE_REMINDER_COMMAND
      sess.session_date).isSome = true) :
    send_late_reminder db tr chat_id session_id = (db, tr) := by
  unfold send_late_reminder
  cases hq : optionalIntTruthy (get_session_message_id db session_id "Q1") with
  | false => simp [hq]
  | true => simp [hq, hsess, hE]

theorem send_late_reminder_cases (db : DB) (tr : Transport) (chat_id session_id : ℤ) :
    send_late_reminder db tr chat_id session_id = (db, tr) ∨
    (∃ sess mid, dbGetSession db session_id = some sess ∧
      (send_late_reminder db tr chat_id session_id).1
        = set_command_message_id db chat_id 0 LATE_REMINDER_COMMAND
            sess.session_date mid) := by
  unfold send_late_reminder
  cases hq : optionalIntTruthy (get_session_message_id db session_id "Q1") with
  | false => left; simp [hq]
  | true =>
      cases hsess : dbGetSession db session_id with
      | none => left; simp [hq, hsess]
      | some sess =>
          by_cases hE : (get_command_message_id db chat_id 0 LATE_REMINDER_COMMAND
              sess.session_date).isSome = true
          · left; simp [hq, hsess, hE]
          · cases htext : build_late_reminder_text db session_id with
            | none => left; simp [hq, hsess, hE, htext]
            | some text =>
                right
                refine ⟨sess, (safe_send_message tr chat_id text).1, rfl, ?_⟩
                simp [hq, hsess, hE, htext]

theorem send_late_reminder_idem (db : DB) (tr : Transport) (chat_id session_id : ℤ) :
    send_late_reminder (send_late_reminder db tr chat_id session_id).1
      (send_late_reminder db tr chat_id session_id).2 chat_id session_id
      = send_late_reminder db tr chat_id session_id := by
  rcases send_late_reminder_cases db tr chat_id session_id with h | ⟨sess, mid, hsess, hset⟩
  · rw [h]
    exact h
  · have hsess2 : dbGetSession (send_late_reminder db tr chat_id session_id).1 session_id
        = some sess := by
      rw [hset, dbGetSession_set_cm]
      exact hsess
    have hE2 : (get_command_message_id (send_late_reminder db tr chat_id session_id).1
        chat_id 0 LATE_REMINDER_COMMAND sess.session_date).isSome = true := by
      rw [hset, get_command_message_id_set_self]
      rfl
    rw [send_late_reminder_entry_noop _ _ _ _ _ hsess2 hE2]

theorem send_reminder_22_entry_noop (db : DB) (tr : Transport)
    (chat_id session_id : ℤ) (sess : SessRec)
    (hsess : dbGetSession db session_id = some sess)
    (hE : (get_command_message_id db chat_id 0 REMINDER22_COMMAND
      sess.session_date).isSome = true) :
    send_reminder_22 db tr chat_id session_id = (db, tr) := by
  unfold send_reminder_22
  cases hq : optionalIntTruthy (get_session_message_id db session_id "Q1") with
  | false => simp [hq]
  | true => simp [hq, hsess, hE]

theorem send_reminder_22_cases (db : DB) (tr : Transport) (chat_id session_id : ℤ) :
    send_reminder_22 db tr chat_id session_id = (db, tr) ∨
    (∃ sess mid, dbGetSession db session_id = some sess ∧
      (send_reminder_22 db tr chat_id session_id).1
        = set_command_message_id db chat_id 0 REMINDER22_COMMAND
            sess.session_date mid) := by
  unfold send_reminder_22
  cases hq : optionalIntTruthy (get_session_message_id db session_id "Q1") with
  | false => left; simp [hq]
  | true =>
      cases hsess : dbGetSession db session_id with
      | none => left; simp [hq, hsess]
      | some sess =>
          by_cases hE : (get_command_message_id db chat_id 0 REMINDER22_COMMAND
              sess.session_date).isSome = true
          · left; simp [hq, hsess, hE]
          · cases htext : build_reminder_22_text db session_id with
            | none => left; simp [hq, hsess, hE, htext]
            | some text =>
                right
                refine ⟨sess, (safe_send_message tr chat_id text).1, rfl, ?_⟩
                simp [hq, hsess, hE, htext]

theorem send_reminder_22_idem (db : DB) (tr : Transport) (chat_id session_id : ℤ) :
    send_reminder_22 (send_reminder_22 db tr chat_id session_id).1
      (send_reminder_22 db tr chat_id session_id).2 chat_id session_id
      = send_reminder_22 db tr chat_id session_id := by
  rcases send_reminder_22_cases db tr chat_id session_id with h | ⟨sess, mid, hsess, hset⟩
  · rw [h]
    exact h
  · have hsess2 : dbGetSession (send_reminder_22 db tr chat_id session_id).1 session_id
        = some sess := by
      rw [hset, dbGetSession_set_cm]
      exact hsess
    have hE2 : (get_command_message_id (send_reminder_22 db tr chat_id session_id).1
        chat_id 0 REMINDER22_COMMAND sess.session_date).isSome = true := by
      rw [hset, get_command_message_id_set_self]
      rfl
    rw [send_reminder_22_entry_noop _ _ _ _ _ hsess2 hE2]

theorem send_stats_kind_entry_noop (b : DB → ℤ → ℤ → String → String)
    (db : DB) (tr : Transport) (c d : ℤ) (kind period title : String)
    (hE : (get_command_message_id db c 0 kind d).isSome = true) :
    send_stats_kind b db tr c d kind period title = (db, tr) := by
  unfold send_stats_kind
  simp [hE]

theorem send_stats_kind_entry_isSome (b : DB → ℤ → ℤ → String → String)
    (db : DB) (tr : Transport) (c d : ℤ) (kind period title : String) :
    (get_command_message_id (send_stats_kind b db tr c d kind period title).1
      c 0 kind d).isSome = true := by
  unfold send_stats_kind
  by_cases hE : (get_command_message_id db c 0 kind d).isSome = true
  · rw [if_pos hE]
    exact hE
  · rw [if_neg hE]
    simp only [get_command_message_id_set_self, Option.isSome_some]

theorem send_stats_kind_get_other (b : DB → ℤ → ℤ → String → String)
    (db : DB) (tr : Transport) (c d : ℤ) (kind period title kind2 : String)
    (hne : ¬kind2 = kind) :
    get_command_message_id (send_stats_kind b db tr c d kind period title).1
      c 0 kind2 d = get_command_message_id db c 0 kind2 d := by
  unfold send_stats_kind
  by_cases hE : (get_command_message_id db c 0 kind d).isSome = true
  · rw [if_pos hE]
  · rw [if_neg hE]
    simp only []
    exact get_command_message_id_set_other _ _ _ _ _ _ _ _ _ _
      (fun hg => hne hg.2.2.1)

theorem send_stats_weekly_get_other (b : DB → ℤ → ℤ → String → String)
    (s : DB × Transport) (c d : ℤ) (kind2 : String) (hne : ¬kind2 = "weekly_stats") :
    get_command_message_id (send_stats_weekly b s c d).1 c 0 kind2 d
      = get_command_message_id s.1 c 0 kind2 d := by
  unfold send_stats_weekly
  by_cases hg : dateWeekday d = 6
  · rw [if_pos hg, send_stats_kind_get_other _ _ _ _ _ _ _ _ _ hne]
  · rw [if_neg hg]

theorem send_stats_monthly_get_other (b : DB → ℤ → ℤ → String → String)
    (s : DB × Transport) (c d : ℤ) (kind2 : String) (hne : ¬kind2 = "monthly_stats") :
    get_command_message_id (send_stats_monthly b s c d).1 c 0 kind2 d
      = get_command_message_id s.1 c 0 kind2 d := by
  unfold send_stats_monthly
  by_cases hg : is_last_day_of_month d = true
  · rw [if_pos hg, send_stats_kind_get_other _ _ _ _ _ _ _ _ _ hne]
  · rw [if_neg hg]

theorem send_stats_yearly_get_other (b : DB → ℤ → ℤ → String → String)
    (s : DB × Transport) (c d : ℤ) (kind2 : String) (hne : ¬kind2 = "yearly_stats") :
    get_command_message_id (send_stats_yearly b s c d).1 c 0 kind2 d
      = get_command_message_id s.1 c 0 kind2 d := by
  unfold send_stats_yearly
  by_cases hg : dateMonth d = 12 ∧ dateDay d = 31
  · rw [if_pos hg, send_stats_kind_get_other _ _ _ _ _ _ _ _ _ hne]
  · rw [if_neg hg]

/-- After one `_send_periodic_stats` run, every kind whose gate is open has
its correlation entry present. -/
theorem send_periodic_stats_entries (b : DB → ℤ → ℤ → String → String)
    (db : DB) (tr : Transport) (c d : ℤ) :
    (dateWeekday d = 6 →
      (get_command_message_id (send_periodic_stats b db tr c d).1
        c 0 "weekly_stats" d).isSome = true) ∧
    (is_last_day_of_month d = true →
      (get_command_message_id (send_periodic_stats b db tr c d).1
        c 0 "monthly_stats" d).isSome = true) ∧
    (dateMonth d = 12 ∧ dateDay d = 31 →
      (get_command_message_id (send_periodic_stats b db tr c d).1
        c 0 "yearly_stats" d).isSome = true) := by
  unfold send_periodic_stats
  refine ⟨?_, ?_, ?_⟩
  · intro hg
    rw [send_stats_yearly_get_other _ _ _ _ _ (by decide),
      send_stats_monthly_get_other _ _ _ _ _ (by decide)]
    unfold send_stats_weekly
    rw [if_pos hg]
    exact send_stats_kind_entry_isSome _ _ _ _ _ _ _ _
  · intro hg
    rw [send_stats_yearly_get_other _ _ _ _ _ (by decide)]
    unfold send_stats_monthly
    rw [if_pos hg]
    exact send_stats_kind_entry_isSome _ _ _ _ _ _ _ _
  · intro hg
    unfold send_stats_yearly
    rw [if_pos hg]
    exact send_stats_kind_entry_isSome _ _ _ _ _ _ _ _

/-- When every open gate's correlation entry is already present, one
`_send_periodic_stats` run is a complete no-op. -/
theorem send_periodic_stats_noop (b : DB → ℤ → ℤ → String → String)
    (db : DB) (tr : Transport) (c d : ℤ)
    (hw : dateWeekday d = 6 →
      (get_command_message_id db c 0 "weekly_stats" d).isSome = true)
    (hm : is_last_day_of_month d = true →
      (get_command_message_id db c 0 "monthly_stats" d).isSome = true)
    (hy : dateMonth d = 12 ∧ dateDay d = 31 →
      (get_command_message_id db c 0 "yearly_stats" d).isSome = true) :
    send_periodic_stats b db tr c d = (db, tr) := by
  unfold send_periodic_stats
  have h1 : send_stats_weekly b (db, tr) c d = (db, tr) := by
    unfold send_stats_weekly
    by_cases hg : dateWeekday d = 6
    · rw [if_pos hg]
      exact send_stats_kind_entry_noop _ _ _ _ _ _ _ _ (hw hg)
    · rw [if_neg hg]
  rw [h1]
  have h2 : send_stats_monthly b (db, tr) c d = (db, tr) := by
    unfold send_stats_monthly
    by_cases hg : is_last_day_of_month d = true
    · rw [if_pos hg]
      exact send_stats_kind_entry_noop _ _ _ _ _ _ _ _ (hm hg)
    · rw [if_neg hg]
  rw [h2]
  unfold send_stats_yearly
  by_cases hg : dateMonth d = 12 ∧ dateDay d = 31
  · rw [if_pos hg]
    exact send_stats_kind_entry_noop _ _ _ _ _ _ _ _ (hy hg)
  · rw [if_neg hg]

theorem send_periodic_stats_idem (b : DB → ℤ → ℤ → String → String)
    (db : DB) (tr : Transport) (c d : ℤ) :
    send_periodic_stats b (send_periodic_stats b db tr c d).1
      (send_periodic_stats b db tr c d).2 c d
      = send_periodic_stats b db tr c d := by
  obtain ⟨hw, hm, hy⟩ := send_periodic_stats_entries b db tr c d
  rw [send_periodic_stats_noop b _ _ c d hw hm hy]

theorem send_holiday_entry_noop (db : DB) (tr : Transport)
    (chat_id session_id local_date : ℤ)
    (hE : (get_command_message_id db chat_id 0 "holiday_notice" local_date).isSome
      = true) :
    send_holiday_notice_if_needed db tr chat_id session_id local_date = (db, tr) := by
  unfold send_holiday_notice_if_needed
  by_cases h1 : dateMonth local_date = 2 ∧ dateDay local_date = 9
  · simp only [if_pos h1]
    cases hids : (optionalIntTruthy (get_session_message_id db session_id "Q1")
        && optionalIntTruthy (get_session_message_id db session_id "Q2")
        && optionalIntTruthy (get_session_message_id db session_id "Q3")) with
    | false => simp [hids]
    | true => simp [hids, hE]
  · by_cases h2 : dateMonth local_date = 11 ∧ dateDay local_date = 19
    · simp only [if_neg h1, if_pos h2]
      cases hids : (optionalIntTruthy (get_session_message_id db session_id "Q1")
          && optionalIntTruthy (get_session_message_id db session_id "Q2")
          && optionalIntTruthy (get_session_message_id db session_id "Q3")) with
      | false => simp [hids]
      | true => simp [hids, hE]
    · simp [if_neg h1, if_neg h2]

theorem send_holiday_cases (db : DB) (tr : Transport)
    (chat_id session_id local_date : ℤ) :
    send_holiday_notice_if_needed db tr chat_id session_id local_date = (db, tr) ∨
    (∃ mid, (send_holiday_notice_if_needed db tr chat_id session_id local_date).1
        = set_command_message_id db chat_id 0 "holiday_notice" local_date mid) := by
  unfold send_holiday_notice_if_needed
  by_cases hE : (get_command_message_id db chat_id 0 "holiday_notice"
      local_date).isSome = true
  · left
    by_cases h1 : dateMonth local_date = 2 ∧ dateDay local_date = 9
    · simp only [if_pos h1]
      cases hids : (optionalIntTruthy (get_session_message_id db session_id "Q1")
          && optionalIntTruthy (get_session_message_id db session_id "Q2")
          && optionalIntTruthy (get_session_message_id db session_id "Q3")) with
      | false => simp [hids]
      | true => simp [hids, hE]
    · by_cases h2 : dateMonth local_date = 11 ∧ dateDay local_date = 19
      · simp only [if_neg h1, if_pos h2]
        cases hids : (optionalIntTruthy (get_session_message_id db session_id "Q1")
            && optionalIntTruthy (get_session_message_id db session_id "Q2")
            && optionalIntTruthy (get_session_message_id db session_id "Q3")) with
        | false => simp [hids]
        | true => simp [hids, hE]
      · simp [if_neg h1, if_neg h2]
  · by_cases h1 : dateMonth local_date = 2 ∧ dateDay local_date = 9
    · simp only [if_pos h1]
      cases hids : (optionalIntTruthy (get_session_message_id db session_id "Q1")
          && optionalIntTruthy (get_session_message_id db session_id "Q2")
          && optionalIntTruthy (get_session_message_id db session_id "Q3")) with
      | false => left; simp [hids]
      | true =>
          right
          refine ⟨(safe_send_message tr chat_id
            "Сегодня Национальный день какашек (National Poop Day).").1, ?_⟩
          simp [hids, hE]
    · by_cases h2 : dateMonth local_date = 11 ∧ dateDay local_date = 19
      · simp only [if_neg h1, if_pos h2]
        cases hids : (optionalIntTruthy (get_session_message_id db session_id "Q1")
            && optionalIntTruthy (get_session_message_id db session_id "Q2")
            && optionalIntTruthy (get_session_message_id db session_id "Q3")) with
        | false => left; simp [hids]
        | true =>
            right
            refine ⟨(safe_send_message tr chat_id
              "Сегодня Всемирный день туалета (World Toilet Day).").1, ?_⟩
            simp [hids, hE]
      · left; simp [if_neg h1, if_neg h2]

theorem send_holiday_idem (db : DB) (tr : Transport)
    (chat_id session_id local_date : ℤ) :
    send_holiday_notice_if_needed
      (send_holiday_notice_if_needed db tr chat_id session_id local_date).1
      (send_holiday_notice_if_needed db tr chat_id session_id local_date).2
      chat_id session_id local_date
      = send_holiday_notice_if_needed db tr chat_id session_id local_date := by
  rcases send_holiday_cases db tr chat_id session_id local_date with h | ⟨mid, hset⟩
  · rw [h]
    exact h
  · have hE2 : (get_command_message_id
        (send_holiday_notice_if_needed db tr chat_id session_id local_date).1
        chat_id 0 "holiday_notice" local_date).isSome = true := by
      rw [hset, get_command_message_id_set_self]
      rfl
    rw [send_holiday_entry_noop _ _ _ _ _ hE2]

/-- C3: for every chat, logical date and notification kind (late reminder,
22:00 reminder, weekly/monthly/yearly stats, holiday notice): once the
correlation entry for `(chat, kind, date)` exists, an invocation of the
dispatcher performs no external send for that key (it is a complete
no-op), and each dispatcher run twice in a row equals the dispatcher run
once — the second of two consecutive invocations never sends, so two
consecutive invocations produce exactly the first call's sends (exactly
one when the first call sent). -/
theorem dispatcher_idempotent :
    (∀ (db : DB) (tr : Transport) (chat_id session_id : ℤ) (sess : SessRec),
      dbGetSession db session_id = some sess →
      (get_command_message_id db chat_id 0 LATE_REMINDER_COMMAND
        sess.session_date).isSome = true →
      send_late_reminder db tr chat_id session_id = (db, tr)) ∧
    (∀ (db : DB) (tr : Transport) (chat_id session_id : ℤ),
      send_late_reminder (send_late_reminder db tr chat_id session_id).1
        (send_late_reminder db tr chat_id session_id).2 chat_id session_id
        = send_late_reminder db tr chat_id session_id) ∧
    (∀ (db : DB) (tr : Transport) (chat_id session_id : ℤ) (sess : SessRec),
      dbGetSession db session_id = some sess →
      (get_command_message_id db chat_id 0 REMINDER22_COMMAND
        sess.session_date).isSome = true →
      send_reminder_22 db tr chat_id session_id = (db, tr)) ∧
    (∀ (db : DB) (tr : Transport) (chat_id session_id : ℤ),
      send_reminder_22 (send_reminder_22 db tr chat_id session_id).1
        (send_reminder_22 db tr chat_id session_id).2 chat_id session_id
        = send_reminder_22 db tr chat_id session_id) ∧
    (∀ (b : DB → ℤ → ℤ → String → String) (db : DB) (tr : Transport)
        (chat_id local_date : ℤ) (kind period title : String),
      (get_command_message_id db chat_id 0 kind local_date).isSome = true →
      send_stats_kind b db tr chat_id local_date kind period title = (db, tr)) ∧
    (∀ (b : DB → ℤ → ℤ → String → String) (db : DB) (tr : Transport)
        (chat_id local_date : ℤ),
      send_periodic_stats b (send_periodic_stats b db tr chat_id local_date).1
        (send_periodic_stats b db tr chat_id local_date).2 chat_id local_date
        = send_periodic_stats b db tr chat_id local_date) ∧
    (∀ (db : DB) (tr : Transport) (chat_id session_id local_date : ℤ),
      (get_command_message_id db chat_id 0 "holiday_notice" local_date).isSome = true →
      send_holiday_notice_if_needed db tr chat_id session_id local_date = (db, tr)) ∧
    (∀ (db : DB) (tr : Transport) (chat_id session_id local_date : ℤ),
      send_holiday_notice_if_needed
        (send_holiday_notice_if_needed db tr chat_id session_id local_date).1
        (send_holiday_notice_if_needed db tr chat_id session_id local_date).2
        chat_id session_id local_date
        = send_holiday_notice_if_needed db tr chat_id session_id local_date) :=
  ⟨send_late_reminder_entry_noop, send_late_reminder_idem,
   send_reminder_22_entry_noop, send_reminder_22_idem,
   send_stats_kind_entry_noop, send_periodic_stats_idem,
   send_holiday_entry_noop, send_holiday_idem⟩

/-- Witness for C3 at `c3_db`: the late-reminder and holiday entries are
already present for 2023-02-09, and both dispatchers are no-ops. -/
theorem dispatcher_idempotent_witness :
    send_late_reminder c3_db c3_tr 5 1 = (c3_db, c3_tr) ∧
    send_holiday_notice_if_needed c3_db c3_tr 5 1 738560 = (c3_db, c3_tr) :=
  ⟨dispatcher_idempotent.1 c3_db c3_tr 5 1 ⟨1, 5, 738560, "active"⟩ rfl rfl,
   dispatcher_idempotent.2.2.2.2.2.2.1 c3_db c3_tr 5 1 738560 rfl⟩

/-- C6 counterexample: at `c6_db`/`c6_tr` the Q1 correlation entry points
at message 100 and the transport reports it NotFound; the refresh performs
no fresh send and the stale correlation entry is not cleared — against the
claim's "the stale correlation entry is cleared and exactly one fresh send
is performed". -/
theorem refresh_q1_notfound_counterexample :
    (refresh_current_q1_view c6_render c6_db c6_tr 5 700000).2.sent_log = [] ∧
    (refresh_current_q1_view c6_render c6_db c6_tr 5 700000).1.session_messages
      = [⟨1, "Q1", 100⟩] :=
  ⟨rfl, rfl⟩

/-- C6 amended: when the transport reports the correlated Q1 message
NotFound, `_safe_edit_message_text` swallows the error: the refresh does
not crash, performs no fresh send, and leaves both the database (the
stale correlation entry included) and the transport unchanged. -/
theorem refresh_q1_notfound_noop (render : DB → ℤ → ℤ → ℤ → String) (db : DB)
    (tr : Transport) (chat_id session_date : ℤ) (sess : SessRec)
    (hfind : db.sessions.find? (session_key chat_id session_date) = some sess)
    (hopen : ¬sess.status = "closed")
    (hmid : tr.messages.find? (fun m => decide (m.1
      = (get_session_message_id db sess.session_id "Q1").getD 0)) = none) :
    refresh_current_q1_view render db tr chat_id session_date = (db, tr) := by
  unfold refresh_current_q1_view
  rw [hfind]
  simp only []
  rw [if_neg hopen]
  cases hq : optionalIntTruthy (get_session_message_id db sess.session_id "Q1") with
  | false => simp [hq]
  | true =>
      have hedit : safe_edit_message_text tr chat_id
          ((get_session_message_id db sess.session_id "Q1").getD 0)
          (render db chat_id sess.session_id session_date) = (none, tr) := by
        unfold safe_edit_message_text transport_edit
        rw [hmid]
      simp [hq, hedit]

/-- Witness for C6's amended statement at the concrete stale state. -/
theorem refresh_q1_notfound_noop_witness :
    refresh_current_q1_view c6_render c6_db c6_tr 5 700000 = (c6_db, c6_tr) :=
  refresh_q1_notfound_noop c6_render c6_db c6_tr 5 700000 ⟨1, 5, 700000, "active"⟩
    rfl (by decide) rfl

/-- C7 counterexample: at `c7_db` the sole member already has positive
activity, so the late-reminder builder yields no content; the dispatcher
sends nothing AND does not record the `(chat, kind, date)` correlation
entry — against the claim's "still records the correlation entry as
handled". -/
theorem late_reminder_empty_counterexample :
    build_late_reminder_text c7_db 1 = none ∧
    (send_late_reminder c7_db c7_tr 5 1).2.sent_log = [] ∧
    get_command_message_id (send_late_reminder c7_db c7_tr 5 1).1 5 0
      LATE_REMINDER_COMMAND 700000 = none :=
  ⟨rfl, rfl, rfl⟩

/-- C7 amended: when the builder produces no content the dispatcher sends
nothing to the transport and records nothing — the state is left entirely
unchanged; consequently an immediate re-invocation also sends nothing (no
retry sends occur while the builder's output stays empty). -/
theorem late_reminder_empty_sends_nothing (db : DB) (tr : Transport)
    (chat_id session_id : ℤ)
    (hempty : build_late_reminder_text db session_id = none) :
    send_late_reminder db tr chat_id session_id = (db, tr) ∧
    send_late_reminder (send_late_reminder db tr chat_id session_id).1
      (send_late_reminder db tr chat_id session_id).2 chat_id session_id
      = (db, tr) := by
  have h1 : send_late_reminder db tr chat_id session_id = (db, tr) := by
    unfold send_late_reminder
    cases hq : optionalIntTruthy (get_session_message_id db session_id "Q1") with
    | false => simp [hq]
    | true =>
        cases hsess : dbGetSession db session_id with
        | none => simp [hq, hsess]
        | some sess =>
            by_cases hE : (get_command_message_id db chat_id 0 LATE_REMINDER_COMMAND
                sess.session_date).isSome = true
            · simp [hq, hsess, hE]
            · simp [hq, hsess, hE, hempty]
  refine ⟨h1, ?_⟩
  rw [h1]
  exact h1

/-- Witness for C7's amended statement at the concrete everyone-done state. -/
theorem late_reminder_empty_sends_nothing_witness :
    send_late_reminder c7_db c7_tr 5 1 = (c7_db, c7_tr) :=
  (late_reminder_empty_sends_nothing c7_db c7_tr 5 1 rfl).1

/-! ### Rate limiter lemmas and C5 -/

theorem rlLookup_append_fresh (table : RateLimitTable) (key : ℤ × ℤ × String) (now : ℤ)
    (h : rlLookup table key = none) :
    rlLookup (table ++ [(key, now)]) key = some now := by
  unfold rlLookup at h ⊢
  have hfind : List.find? (fun e => decide (e.1 = key)) table = none := by
    cases hf : List.find? (fun e => decide (e.1 = key)) table with
    | none => rfl
    | some e => rw [hf] at h; simp at h
  rw [find?_append_none _ _ _ hfind, List.find?_cons_of_pos _ (by simp)]
  rfl

theorem rlLookup_rlSet_self (table : RateLimitTable) (key : ℤ × ℤ × String) (now : ℤ)
    (h : (rlLookup table key).isSome = true) :
    rlLookup (rlSet key now table) key = some now := by
  unfold rlLookup at h ⊢
  induction table with
  | nil => simp at h
  | cons e rest ih =>
      by_cases hk : e.1 = key
      · simp only [rlSet, if_pos hk]
        rw [List.find?_cons_of_pos _ (by simp)]
        rfl
      · simp only [rlSet, if_neg hk]
        rw [List.find?_cons_of_neg _ (by simp [hk])]
        rw [List.find?_cons_of_neg _ (by simp [hk])] at h
        exact ih h

/-- C5: for every `(chat, user, scope)` key, the first-ever call to the
rate limiter returns true and stamps `now`; every later call returns true
iff `now - stored ≥ cooldown`, and a call that returns true updates the
stored timestamp to `now` in the same operation. -/
theorem check_rate_limit_spec (table : RateLimitTable) (now chat_id user_id : ℤ)
    (scope : String) (cooldown : ℤ) :
    (rlLookup table (chat_id, user_id, scope) = none →
      (check_rate_limit table now chat_id user_id scope cooldown).1 = true ∧
      rlLookup (check_rate_limit table now chat_id user_id scope cooldown).2
        (chat_id, user_id, scope) = some now) ∧
    (∀ last, rlLookup table (chat_id, user_id, scope) = some last →
      ((check_rate_limit table now chat_id user_id scope cooldown).1 = true ↔
        cooldown ≤ now - last) ∧
      ((check_rate_limit table now chat_id user_id scope cooldown).1 = true →
        rlLookup (check_rate_limit table now chat_id user_id scope cooldown).2
          (chat_id, user_id, scope) = some now)) := by
  unfold check_rate_limit
  cases hl : rlLookup table (chat_id, user_id, scope) with
  | none =>
      refine ⟨fun _ => ⟨rfl, rlLookup_append_fresh table _ now hl⟩, ?_⟩
      intro last hlast
      exact absurd hlast (by simp)
  | some last0 =>
      refine ⟨fun hc => absurd hc (by simp), ?_⟩
      intro last hlast
      have heq : last0 = last := by
        injection hlast
      subst heq
      simp only []
      by_cases hlt : now - last0 < cooldown
      · rw [if_pos hlt]
        constructor
        · constructor
          · intro hfalse
            exact absurd hfalse (by simp)
          · intro hge
            omega
        · intro hfalse
          exact absurd hfalse (by simp)
      · rw [if_neg hlt]
        refine ⟨⟨fun _ => by omega, fun _ => rfl⟩, fun _ => ?_⟩
        exact rlLookup_rlSet_self table _ now (by rw [hl]; rfl)

/-- Witness for C5: first-ever call on an empty table, then a blocked and
an allowed follow-up. -/
theorem check_rate_limit_spec_witness :
    (check_rate_limit [] 100 1 2 "plus" 2).1 = true ∧
    rlLookup (check_rate_limit [] 100 1 2 "plus" 2).2 (1, 2, "plus") = some 100 :=
  (check_rate_limit_spec [] 100 1 2 "plus" 2).1 rfl

/-! ### C8: tick failure isolation -/

/-- C8: a tick over the enabled chats attempts every chat in order, even
when chat `k`'s pipeline raises: the exception is caught at the per-chat
boundary and logged (exactly once when the chat list is duplicate-free),
and the sweep is never aborted. -/
theorem tick_sweep_failure_isolated (chats : List ℤ) (run : ℤ → ProcessOutcome)
    (k : ℤ) (hk : k ∈ chats) (hfail : run k = .failed) :
    (tick_sweep chats run).attempted = chats ∧
    (tick_sweep chats run).errors_logged
      = chats.filter (fun c => decide (run c = .failed)) ∧
    k ∈ (tick_sweep chats run).errors_logged ∧
    (chats.Nodup → (tick_sweep chats run).errors_logged.count k = 1) := by
  have main : ∀ l : List ℤ, (tick_sweep l run).attempted = l ∧
      (tick_sweep l run).errors_logged
        = l.filter (fun c => decide (run c = .failed)) := by
    intro l
    induction l with
    | nil => exact ⟨rfl, rfl⟩
    | cons c rest ih =>
        cases hrc : run c <;>
          simp [tick_sweep, hrc, ih.1, ih.2, List.filter_cons]
  refine ⟨(main chats).1, (main chats).2, ?_, ?_⟩
  · rw [(main chats).2]
    exact List.mem_filter.mpr ⟨hk, by simp [hfail]⟩
  · intro hnd
    rw [(main chats).2, List.count_filter (by simp [hfail])]
    exact List.count_eq_one_of_mem hnd hk

/-- Witness for C8: chat 1 fails among `[1, 2, 3]`; all three are attempted
and the error is logged once. -/
theorem tick_sweep_failure_isolated_witness :
    (tick_sweep [1, 2, 3] (fun c => if c = 1 then .failed else .ok)).attempted
      = [1, 2, 3] ∧
    (tick_sweep [1, 2, 3]
      (fun c => if c = 1 then .failed else .ok)).errors_logged.count 1 = 1 := by
  have h := tick_sweep_failure_isolated [1, 2, 3]
    (fun c => if c = 1 then .failed else .ok) 1 (by decide) rfl
  exact ⟨h.1, h.2.2.2 (by decide)⟩

/-! ### C9: session uniqueness -/

theorem session_key_status_irrel (c d : ℤ) (s : SessRec) (sid : ℤ) :
    session_key c d (if s.session_id = sid then { s with status := "closed" } else s)
      = session_key c d s := by
  split <;> rfl

theorem close_session_mark_filter_length (l : List SessRec) (sid c d : ℤ) :
    ((l.map (fun s => if s.session_id = sid then { s with status := "closed" } else s)).filter
      (session_key c d)).length = (l.filter (session_key c d)).length := by
  induction l with
  | nil => rfl
  | cons s rest ih =>
      simp only [List.map_cons, List.filter_cons, session_key_status_irrel]
      cases hk : session_key c d s <;> simp [hk, ih]

/-- C9: starting from a state where each `(chat_id, session_date)` pair has
at most one `Session` row, `get_or_create_session` preserves this: it
returns the existing session untouched when one exists and otherwise
inserts exactly one new `active` session; the scheduler's other
Session-table effect (marking a session closed) also preserves the
invariant, so at most one Session ever exists per `(tenant, date)`. -/
theorem get_or_create_session_unique_spec (db : DB) (c d : ℤ)
    (hinv : session_unique db) :
    session_unique (get_or_create_session db c d).2 ∧
    (∀ s, db.sessions.find? (session_key c d) = some s →
      get_or_create_session db c d = (s, db)) ∧
    (db.sessions.find? (session_key c d) = none →
      (get_or_create_session db c d).1.status = "active" ∧
      (get_or_create_session db c d).2.sessions
        = db.sessions ++ [(get_or_create_session db c d).1]) ∧
    (∀ sid, session_unique (close_session_mark db sid)) := by
  refine ⟨?_, ?_, ?_, ?_⟩
  · unfold get_or_create_session
    cases hfind : db.sessions.find? (session_key c d) with
    | some s => exact hinv
    | none =>
        intro c2 d2
        simp only []
        rw [List.filter_append, List.length_append]
        cases hmatch : session_key c2 d2
            ⟨db.next_session_id, c, d, "active"⟩ with
        | false =>
            rw [List.filter_cons_of_neg (by simp [hmatch])]
            simpa using hinv c2 d2
        | true =>
            have hcd : c = c2 ∧ d = d2 := by
              simpa [session_key] using hmatch
            obtain ⟨rfl, rfl⟩ := hcd
            have hnil : db.sessions.filter (session_key c d) = [] := by
              rw [List.filter_eq_nil_iff]
              intro a ha
              have := List.find?_eq_none.mp hfind a ha
              simpa using this
            rw [hnil]
            simp [List.filter_cons, hmatch]
  · intro s hfind
    unfold get_or_create_session
    rw [hfind]
  · intro hfind
    unfold get_or_create_session
    rw [hfind]
    exact ⟨rfl, rfl⟩
  · intro sid c2 d2
    unfold close_session_mark
    cases hsess : dbGetSession db sid with
    | none => exact hinv c2 d2
    | some sess =>
        simp only []
        by_cases hclosed : sess.status = "closed"
        · rw [if_pos hclosed]
          exact hinv c2 d2
        · rw [if_neg hclosed]
          simp only []
          rw [close_session_mark_filter_length]
          exact hinv c2 d2

/-- Witness for C9 on an empty database. -/
theorem get_or_create_session_unique_spec_witness :
    session_unique (get_or_create_session ⟨[], 1, [], [], [], [], [], [], []⟩ 5 700000).2 :=
  (get_or_create_session_unique_spec ⟨[], 1, [], [], [], [], [], [], []⟩ 5 700000
    (fun c d => by simp [session_unique])).1

/-! ### C10: apply_plus cap -/

theorem create_event_sus (db : DB) (a b c : ℤ) :
    (create_event db a b c).session_user_states = db.session_user_states := by
  unfold create_event
  split <;> rfl

theorem setSusFirst_find_self (l : List SessionUserStateRec) (sid uid : ℤ)
    (new : SessionUserStateRec)
    (hnew : susKey sid uid new = true)
    (h : (l.find? (susKey sid uid)).isSome = true) :
    (setSusFirst sid uid new l).find? (susKey sid uid) = some new := by
  induction l with
  | nil => simp at h
  | cons r rest ih =>
      by_cases hk : susKey sid uid r = true
      · simp only [setSusFirst, if_pos hk]
        rw [List.find?_cons_of_pos _ hnew]
      · simp only [setSusFirst, if_neg hk]
        rw [List.find?_cons_of_neg _ hk]
        rw [List.find?_cons_of_neg _ hk] at h
        exact ih h

theorem setSusFirst_lookup_poops (l : List SessionUserStateRec) (sid uid : ℤ)
    (new : SessionUserStateRec) (hnew : susKey sid uid new = true)
    (h : (l.find? (susKey sid uid)).isSome = true) :
    ((setSusFirst sid uid new l).find? (susKey sid uid)).map (fun s => s.poops_n)
      = some new.poops_n := by
  rw [setSusFirst_find_self l sid uid new hnew h]
  rfl

theorem apply_plus_body_cap (choice : List String → String) (db : DB)
    (sid uid : ℤ) (st : SessionUserStateRec) (h : 10 ≤ st.poops_n) :
    apply_plus_body choice db sid uid st = ((false, "Я тебе не верю"), db) := by
  unfold apply_plus_body
  rw [if_pos h]

theorem apply_plus_body_inc (choice : List String → String) (db : DB)
    (sid uid : ℤ) (st : SessionUserStateRec) (h : ¬10 ≤ st.poops_n)
    (hkey : susKey sid uid st = true)
    (hfound : (db.session_user_states.find? (susKey sid uid)).isSome = true) :
    (apply_plus_body choice db sid uid st).1.1 = true ∧
    (dbGetSessionUserState (apply_plus_body choice db sid uid st).2 sid uid).map
      (fun s => s.poops_n) = some (st.poops_n + 1) := by
  unfold apply_plus_body
  rw [if_neg h]
  simp only []
  constructor
  · split_ifs <;> rfl
  · have hfound2 : ((create_event db sid uid (st.poops_n + 1)).session_user_states.find?
        (susKey sid uid)).isSome = true := by
      rw [create_event_sus]
      exact hfound
    split_ifs <;>
      (simp only [dbGetSessionUserState]
       exact setSusFirst_lookup_poops _ _ _ _ (by exact hkey) hfound2)

/-- C10: `apply_plus` increments the per-day activity counter by exactly
one and reports success when the counter is below 10; when the counter is
already at 10 (the cap) it reports failure and leaves the database —
counter, achievement text and event log — completely unchanged, so the
per-day counter never exceeds 10. -/
theorem apply_plus_caps_at_ten (choice : List String → String) (db : DB)
    (session_id user_id : ℤ) :
    ((((dbGetSessionUserState db session_id user_id).map
        (fun s => s.poops_n)).getD 0) < 10 →
      (apply_plus choice db session_id user_id).1.1 = true ∧
      (dbGetSessionUserState (apply_plus choice db session_id user_id).2
          session_id user_id).map (fun s => s.poops_n)
        = some ((((dbGetSessionUserState db session_id user_id).map
            (fun s => s.poops_n)).getD 0) + 1)) ∧
    (10 ≤ (((dbGetSessionUserState db session_id user_id).map
        (fun s => s.poops_n)).getD 0) →
      (apply_plus choice db session_id user_id).1.1 = false ∧
      (apply_plus choice db session_id user_id).2 = db) ∧
    ((((dbGetSessionUserState db session_id user_id).map
        (fun s => s.poops_n)).getD 0) ≤ 10 →
      (((dbGetSessionUserState (apply_plus choice db session_id user_id).2
          session_id user_id).map (fun s => s.poops_n)).getD 0) ≤ 10) := by
  cases hst : dbGetSessionUserState db session_id user_id with
  | none =>
      simp only [hst, Option.map_none', Option.getD_none]
      have hbody := apply_plus_body_inc choice
        { db with session_user_states := db.session_user_states ++
            [⟨session_id, user_id, 0, none, false, none, none⟩] }
        session_id user_id ⟨session_id, user_id, 0, none, false, none, none⟩
        (by norm_num) (by simp [susKey])
        (by
          simp only []
          rw [find?_append_none _ _ _ hst, List.find?_cons_of_pos _ (by simp [susKey])]
          rfl)
      have happ : apply_plus choice db session_id user_id
          = apply_plus_body choice
            { db with session_user_states := db.session_user_states ++
                [⟨session_id, user_id, 0, none, false, none, none⟩] }
            session_id user_id ⟨session_id, user_id, 0, none, false, none, none⟩ := by
        unfold apply_plus
        rw [hst]
      refine ⟨fun _ => ?_, fun h10 => absurd h10 (by norm_num), fun _ => ?_⟩
      · rw [happ]
        exact hbody
      · rw [happ, hbody.2]
        norm_num
  | some st =>
      have hkey : susKey session_id user_id st = true :=
        List.find?_some hst
      have happ : apply_plus choice db session_id user_id
          = apply_plus_body choice db session_id user_id st := by
        unfold apply_plus
        rw [hst]
      simp only [hst, Option.map_some', Option.getD_some]
      by_cases hcap : 10 ≤ st.poops_n
      · refine ⟨fun hlt => absurd hcap (by omega), fun _ => ?_, fun hle => ?_⟩
        · rw [happ, apply_plus_body_cap _ _ _ _ _ hcap]
          exact ⟨rfl, rfl⟩
        · rw [happ, apply_plus_body_cap _ _ _ _ _ hcap]
          simp only [hst, Option.map_some', Option.getD_some]
          exact hle
      · have hbody := apply_plus_body_inc choice db session_id user_id st hcap hkey
          (by rw [show db.session_user_states.find? (susKey session_id user_id)
              = some st from hst]; rfl)
        refine ⟨fun _ => ?_, fun h10 => absurd h10 hcap, fun _ => ?_⟩
        · rw [happ]
          exact hbody
        · rw [happ, hbody.2]
          simp only [Option.getD_some]
          omega

/-- Witness for C10 at the capped state `c10_db` (user 42 already at 10). -/
theorem apply_plus_caps_at_ten_witness :
    (apply_plus (fun pool => pool.headD "") c10_db 1 42).1.1 = false ∧
    (apply_plus (fun pool => pool.headD "") c10_db 1 42).2 = c10_db :=
  (apply_plus_caps_at_ten (fun pool => pool.headD "") c10_db 1 42).2.1 (by decide)

end Poopbot
